import Mathlib

/-!
Shallow embedding of `ontobio/io/gafparser.py` (association parsers for the
GAF, GPAD and HPOA tab-separated annotation formats), together with theorems
settling the specification claims about it.

Conventions of the embedding:
* Python strings are Lean `String`s; the character-level string operations
  used by the source (`str.split` on a one-character separator, `str.join`,
  `str.replace`, `str.find`, `str.startswith`) are defined below on
  `List Char` and lifted, keeping Python's semantics (e.g. `"".split(c)`
  is `[""]`, `replace` replaces every non-overlapping occurrence
  left-to-right).
* A Python exception escaping `parse_line` (the `ValueError` of unpacking a
  split of unexpected length, the `ValueError` raised by
  `_parse_class_expression` on a token without a parenthesised filler, the
  `TypeError` of `"\t".join` on a list cell) is embedded as a `none` result.
* `Report` message emission is embedded by returning the ordered list of
  messages appended during the call alongside the result.
-/

/-- Python `s.split(c)` for a one-character separator, on `List Char`:
always returns a non-empty list, `[]` splits to `[[]]`. -/
def chSplit (c : Char) : List Char → List (List Char)
  | [] => [[]]
  | a :: rest =>
    match chSplit c rest with
    | [] => [[]]
    | grp :: rs => if a = c then [] :: grp :: rs else (a :: grp) :: rs

/-- Python `sep.join(parts)` for a one-character separator, on `List Char`. -/
def chJoin (c : Char) : List (List Char) → List Char
  | [] => []
  | [x] => x
  | x :: xs => x ++ c :: chJoin c xs

/-- Fuel-driven worker for `chReplace`; the fuel starts at the length of the
subject list, which bounds the number of steps. -/
def chReplaceAux (pat repl : List Char) : Nat → List Char → List Char
  | _, [] => []
  | 0, s => s
  | fuel + 1, a :: rest =>
    if pat ≠ [] ∧ pat.isPrefixOf (a :: rest) then
      repl ++ chReplaceAux pat repl fuel ((a :: rest).drop pat.length)
    else
      a :: chReplaceAux pat repl fuel rest

/-- Python `s.replace(pat, repl)`: replace every non-overlapping occurrence,
scanning left to right (the source only calls it with a non-empty pattern). -/
def chReplace (pat repl s : List Char) : List Char :=
  chReplaceAux pat repl s.length s

/-- Index of the last occurrence of `c` in the list, if any. -/
def lastIdxOf (c : Char) : List Char → Option Nat
  | [] => none
  | a :: rest =>
    match lastIdxOf c rest with
    | some n => some (n + 1)
    | none => if a = c then some 0 else none

/-- Python `s.split(c)` lifted to `String`. -/
def pySplit (c : Char) (s : String) : List String :=
  (chSplit c s.data).map String.mk

/-- Python `c.join(parts)` lifted to `String`. -/
def pyJoin (c : Char) (parts : List String) : String :=
  String.mk (chJoin c (parts.map String.data))

/-- Python `s.find(c) > -1` for a one-character needle. -/
def pyContains (s : String) (c : Char) : Bool :=
  s.data.contains c

/-- Python `s.replace(pat, repl)` lifted to `String`. -/
def pyReplace (s pat repl : String) : String :=
  String.mk (chReplace pat.data repl.data s.data)

/-- Python `s.startswith(pre)`. -/
def pyStartsWith (s pre : String) : Bool :=
  pre.data.isPrefixOf s.data

/-- `AssocParserConfig` (gafparser.py lines 18-32): the configuration value
object handed to every parser. Remap tables are embedded as association
lists. -/
structure AssocParserConfig where
  remove_double_prefixes : Bool
  class_map : Option (List (String × String))
  entity_map : Option (List (String × String))
  valid_taxa : Option (List String)
  class_idspaces : Option (List String)
deriving DecidableEq, Repr

/-- The default configuration `AssocParserConfig()`. -/
def defaultConfig : AssocParserConfig :=
  { remove_double_prefixes := false
    class_map := none
    entity_map := none
    valid_taxa := none
    class_idspaces := none }

/-- One entry of `Report.messages` (gafparser.py lines 64-71): the dict
`{'level': _, 'line': _, 'type': _, 'message': _, 'obj': _}`. -/
structure Message where
  level : String
  line : String
  type : String
  message : String
  obj : String
deriving DecidableEq, Repr

namespace Report

def FATAL : String := "FATAL"

def ERROR : String := "ERROR"

def WARNING : String := "WARNING"

def INVALID_ID : String := "Invalid identifier"

def INVALID_IDSPACE : String := "Invalid identifier prefix"

def INVALID_TAXON : String := "Invalid taxon"

end Report

/-- The validation contexts `TAXON`, `ENTITY`, `ANNOTATION`
(gafparser.py lines 14-16). -/
inductive IdContext
  | TAXON
  | ENTITY
  | ANNOTATION
deriving DecidableEq, Repr

/-- One `{property, filler}` annotation-extension atom
(`_parse_class_expression`, gafparser.py lines 288-295). -/
structure Extension where
  property : String
  filler : String
deriving DecidableEq, Repr

/-- The `subject` dict of an association. GPAD builds only `{'id': _}`,
HPOA omits `fullname`; absent keys are embedded as `none`. The `taxon`
field embeds `subject['taxon']['id']`. -/
structure Subject where
  id : String
  label : Option String
  type : Option String
  fullname : Option String
  synonyms : Option (List String)
  taxon : Option String
deriving DecidableEq, Repr

/-- The `object` dict of an association: GAF/HPOA build `{'id', 'taxon'}`,
GPAD builds `{'id', 'extensions'}`; absent keys are `none`. -/
structure AObj where
  id : String
  taxon : Option String
  extensions : Option (List Extension)
deriving DecidableEq, Repr

/-- An `evidence` value. The dict shape is `{'type', _,
'has_supporting_reference', _, 'with_support_from', _}`, but in
`GafParser.parse_line` the name `evidence` is rebound inside the
per-disjunct loop (line 579: `evidence = {'type': evidence, ...}`), so on
the second and later disjuncts the `'type'` key holds the previous
iteration's evidence dict rather than the evidence-column string. The
value is therefore either a string or a dict whose `'type'` is again such
a value, modelled as an inductive. -/
inductive Evidence where
  | str (s : String) : Evidence
  | dict (type : Evidence) (refs : List String) (wf : List String) :
      Evidence
deriving DecidableEq, Repr

/-- The `'has_supporting_reference'` entry of an evidence value. Emitted
records always carry a dict (the string arm is a total-function artifact,
never reached for them). -/
def Evidence.has_supporting_reference : Evidence → List String
  | .str _ => []
  | .dict _ r _ => r

/-- The `'with_support_from'` entry of an evidence value (same caveat as
`Evidence.has_supporting_reference`). -/
def Evidence.with_support_from : Evidence → List String
  | .str _ => []
  | .dict _ _ w => w

/-- One association record as assembled by the decoders. Keys that a given
decoder does not put in the dict are embedded as `none`; `relation` embeds
`assoc['relation']['id']`, whose Python value may itself be `None`. -/
structure Assoc where
  source_line : String
  subject : Subject
  object : AObj
  negated : Option Bool
  qualifiers : Option (List String)
  relation : Option String
  evidence : Evidence
  provided_by : String
  date : String
  subject_extensions : Option (List Extension)
  object_extensions : Option (List Extension)
deriving DecidableEq, Repr

/-- The result of one `parse_line` call: the rewritten line and the records
(or `none` for an escaped exception), plus the report messages appended. -/
abbrev ParseResult := Option (String × List Assoc) × List Message

/-- `AssocParser._get_id_prefix` (lines 218-220): text before the first
colon. -/
def getIdPrefix (id : String) : String :=
  (pySplit ':' id).headD ""

/-- Single-quote character, used by Python's `repr` of a string. -/
def pySq : String := String.mk [Char.ofNat 39]

/-- Python `"{}".format(list-of-strings)` as it appears in the
`INVALID_IDSPACE` message: `['a', 'b']`. -/
def pyListRepr (l : List String) : String :=
  "[" ++ String.intercalate ", " (l.map (fun s => pySq ++ s ++ pySq)) ++ "]"

/-- `AssocParser._validate_id` (lines 232-244). Returns the boolean result
and the messages appended to the report: an id with a space is fatally
rejected; an id with a pipe gets a non-fatal message (note: emitted through
`Report.error`, hence at ERROR level, with an empty line text); in the
ANNOTATION context with a configured idspace allowlist, a prefix outside
the allowlist is fatally rejected. -/
def validate_id (cfg : AssocParserConfig) (id line : String)
    (context : Option IdContext) : Bool × List Message :=
  if pyContains id ' ' then
    (false, [⟨Report.ERROR, line, Report.INVALID_ID, "", id⟩])
  else
    let pipeMsgs : List Message :=
      if pyContains id '|' then [⟨Report.ERROR, "", Report.INVALID_ID, "", id⟩]
      else []
    match context, cfg.class_idspaces with
    | some IdContext.ANNOTATION, some spaces =>
      if getIdPrefix id ∈ spaces then (true, pipeMsgs)
      else
        (false, pipeMsgs ++
          [⟨Report.ERROR, line, Report.INVALID_IDSPACE,
            "allowed: " ++ pyListRepr spaces, id⟩])
    | _, _ => (true, pipeMsgs)

/-- `AssocParser._validate_taxon` (lines 222-230). -/
def validate_taxon (cfg : AssocParserConfig) (taxon line : String) :
    Bool × List Message :=
  match cfg.valid_taxa with
  | none => (true, [])
  | some vt =>
    if taxon ∈ vt then (true, [])
    else (false, [⟨Report.ERROR, line, Report.INVALID_TAXON, "", taxon⟩])

/-- Worker for `_split_pipe`: validate each id (with an empty line text and
no context), keep the ones that pass, in order. -/
def split_pipe_list (cfg : AssocParserConfig) : List String →
    List String × List Message
  | [] => ([], [])
  | id :: rest =>
    let v := validate_id cfg id "" none
    let r := split_pipe_list cfg rest
    (if v.1 then id :: r.1 else r.1, v.2 ++ r.2)

/-- `AssocParser._split_pipe` (lines 246-251). -/
def split_pipe (cfg : AssocParserConfig) (v : String) :
    List String × List Message :=
  if v = "" then ([], [])
  else split_pipe_list cfg (pySplit '|' v)

/-- `AssocParser._pair_to_id` (lines 253-258). -/
def pair_to_id (cfg : AssocParserConfig) (db localid : String) : String :=
  let localid :=
    if cfg.remove_double_prefixes && pyStartsWith localid (db ++ ":") then
      pyReplace localid (db ++ ":") ""
    else localid
  db ++ ":" ++ localid

/-- `AssocParser._taxon_id` (lines 260-263): rewrite the informal `taxon:`
prefix to `NCBITaxon:` and validate (the boolean result is discarded by the
source; only the messages survive). -/
def taxon_id (cfg : AssocParserConfig) (id : String) : String × List Message :=
  let id := pyReplace id "taxon" "NCBITaxon"
  (id, (validate_id cfg id "" (some IdContext.TAXON)).2)

/-- `AssocParser._parse_class_expression` (lines 288-295):
`[(p, v)] = re.findall('(.*)\\((.*)\\)', x)`. For this pattern, `findall`
yields at most one match: with `j` the last index of a closing parenthesis
and `i` the last index of an opening parenthesis before `j`, the greedy
groups are `x[0:i]` and `x[i+1:j]`, and nothing after `j` can match again.
No match makes the unpacking raise, embedded as `none`. -/
def parse_class_expression (x : String) : Option Extension :=
  match lastIdxOf ')' x.data with
  | none => none
  | some j =>
    match lastIdxOf '(' (x.data.take j) with
    | none => none
    | some i =>
      some ⟨String.mk (x.data.take i),
        String.mk ((x.data.drop (i + 1)).take (j - (i + 1)))⟩

/-- Modelled from the spec: `AssocParser.map_id` is called by the decoders
(gafparser.py lines 471, 478, 671, 678) but its definition is not among the
provided sources. Per the spec (§4.2 step 4: "If an entity-id or term-id
remap table is configured, substitute the mapped id"), it substitutes the
remapped identifier when the table has an entry for the id and otherwise
returns the id unchanged. -/
def map_id (id : String) (m : List (String × String)) : String :=
  match m.lookup id with
  | some v => v
  | none => id

/-- Parse the conjuncts of one extension disjunct (gafparser.py lines
363-365 / 516-520): skip empty tokens, parse each non-empty one; the first
unparsable token aborts the whole call (the source raises). -/
def parseExtns : List String → Option (List Extension)
  | [] => some []
  | x :: rest =>
    if x = "" then parseExtns rest
    else
      match parse_class_expression x with
      | none => none
      | some e =>
        match parseExtns rest with
        | none => none
        | some es => some (e :: es)

/-- `parseExtns` applied to every disjunct of an extension column. -/
def parseAllExtns : List String → Option (List (List Extension))
  | [] => some []
  | xp_or :: rest =>
    match parseExtns (pySplit ',' xp_or), parseAllExtns rest with
    | some e, some es => some (e :: es)
    | _, _ => none

/-- The aspect → default-relation table of `GafParser.parse_line`
(lines 539-546). -/
def gafDefaultRelation (aspect : String) : Option String :=
  if aspect = "C" then some "part_of"
  else if aspect = "P" then some "involved_in"
  else if aspect = "F" then some "enables"
  else none

/-- The qualifier tokens of a GAF/HPOA line (lines 527-529 / 703-705):
split the qualifier column on the pipe, an empty column giving no tokens. -/
def qualifierTokens (qualifier : String) : List String :=
  if qualifier = "" then [] else pySplit '|' qualifier

/-- One GAF association dict (lines 526-604), for one extension disjunct.
`vals` is the (possibly remapped) 17-entry column list, `line` the
regenerated line, `id` the validated entity id, `taxon` the primary
normalized taxon, `synonyms` the split synonym column, `ev` the evidence
dict built for this disjunct (lines 579-583). -/
def gafMkAssoc (cfg : AssocParserConfig) (line id : String)
    (vals : List String) (taxon : String) (synonyms : List String)
    (extns : List Extension) (ev : Evidence) : Assoc :=
  let qualifiers := qualifierTokens (vals.getD 3 "")
  let negated := qualifiers.contains "NOT"
  let other_qualifiers := qualifiers.filter (fun q => q != "NOT")
  let relation :=
    if other_qualifiers.length > 0 then some (other_qualifiers.headD "")
    else gafDefaultRelation (vals.getD 8 "")
  let gpi := vals.getD 16 ""
  let subject_extns : List Extension :=
    if gpi != "" then [⟨"isoform", gpi⟩] else []
  { source_line := line
    subject :=
      ⟨id, some (vals.getD 2 ""), some (vals.getD 11 ""),
        some (vals.getD 9 ""), some synonyms, some taxon⟩
    object := ⟨vals.getD 4 "", some taxon, none⟩
    negated := some negated
    qualifiers := some qualifiers
    relation := relation
    evidence := ev
    provided_by := vals.getD 14 ""
    date := vals.getD 13 ""
    subject_extensions :=
      if subject_extns.length > 0 then some subject_extns else none
    object_extensions := if extns.length > 0 then some extns else none }

/-- The per-disjunct loop of `GafParser.parse_line` (lines 511-605): for
each disjunct parse its conjuncts (an unparsable one raises, embedded as
`none`, keeping the messages of the disjuncts already processed), then
rebuild the evidence dict — `evidence = {'type': evidence, ...}` (line
579) reads the loop-carried `evidence` value, the column string on the
first disjunct and the previous disjunct's dict afterwards — and build
the association; `_split_pipe` on the reference and with/from columns
contributes its messages per disjunct, reference first. -/
def gafLoop (cfg : AssocParserConfig) (line id : String) (vals : List String)
    (taxon : String) (synonyms : List String) :
    Evidence → List String → Option (List Assoc) × List Message
  | _, [] => (some [], [])
  | ev, xp_or :: rest =>
    match parseExtns (pySplit ',' xp_or) with
    | none => (none, [])
    | some extns =>
      let ev' := Evidence.dict ev (split_pipe cfg (vals.getD 5 "")).1
        (split_pipe cfg (vals.getD 7 "")).1
      let a := gafMkAssoc cfg line id vals taxon synonyms extns ev'
      let mR := (split_pipe cfg (vals.getD 5 "")).2
      let mW := (split_pipe cfg (vals.getD 7 "")).2
      match gafLoop cfg line id vals taxon synonyms ev' rest with
      | (none, mRest) => (none, mR ++ mW ++ mRest)
      | (some as, mRest) => (some (a :: as), mR ++ mW ++ mRest)

/-- The association list a successful GAF per-disjunct loop produces for
the parsed disjunct atom lists `es`, threading the loop-carried evidence
value exactly as `gafLoop` does. -/
def gafExpected (cfg : AssocParserConfig) (line id : String)
    (vals : List String) (taxon : String) (syn : List String) :
    Evidence → List (List Extension) → List Assoc
  | _, [] => []
  | ev, e :: es =>
    let ev' := Evidence.dict ev (split_pipe cfg (vals.getD 5 "")).1
      (split_pipe cfg (vals.getD 7 "")).1
    gafMkAssoc cfg line id vals taxon syn e ev' ::
      gafExpected cfg line id vals taxon syn ev' es

/-- The primary (first) normalized taxon of a GAF column list
(gafparser.py lines 494-495): `taxon.split('|')`, `_taxon_id` each, first
token. -/
def gafTaxonOf (cfg : AssocParserConfig) (vals : List String) : String :=
  (((pySplit '|' (vals.getD 12 "")).map (taxon_id cfg)).map Prod.fst).headD ""

/-- The synonym list of a GAF column list (lines 502-504). -/
def gafSynOf (vals : List String) : List String :=
  if vals.getD 10 "" = "" then [] else pySplit '|' (vals.getD 10 "")

/-- The tail of `GafParser.parse_line` after the remap branches (lines
484-606): regenerate the line from `vals`, normalize the taxon column
(collecting the `_taxon_id` messages in order), validate the primary taxon
(result discarded), split the synonym column, then run the per-disjunct
loop over the split extension column. -/
def gafAssemble (cfg : AssocParserConfig) (id : String)
    (vals : List String) : ParseResult :=
  let line := pyJoin '\t' vals
  let taxon := gafTaxonOf cfg vals
  let mTax := ((pySplit '|' (vals.getD 12 "")).map (taxon_id cfg)).foldr
    (fun p acc => p.2 ++ acc) []
  let mVT := (validate_taxon cfg taxon line).2
  match gafLoop cfg line id vals taxon (gafSynOf vals)
      (Evidence.str (vals.getD 6 "")) (pySplit '|' (vals.getD 15 "")) with
  | (none, mL) => (none, mTax ++ mVT ++ mL)
  | (some assocs, mL) => (some (line, assocs), mTax ++ mVT ++ mL)

/-- `GafParser.parse_line` on the split column list (lines 426-606).
A 15-entry list was already padded by the caller; any length other than 17
makes the unpacking raise (embedded as `none`). Entity and term id are
validated (a failure returns the original line with no records); a
configured `class_map` remaps and re-validates the term id and writes it
back into column 4; a configured `entity_map` sets column 1 to a list slice
(`toks[1:]`), so the subsequent `"\t".join(vals)` raises a `TypeError`
(embedded as `none`). -/
def gafParseVals (cfg : AssocParserConfig) (line : String)
    (vals : List String) : ParseResult :=
  if vals.length = 17 then
    let id := pair_to_id cfg (vals.getD 0 "") (vals.getD 1 "")
    let v1 := validate_id cfg id line (some IdContext.ENTITY)
    if v1.1 then
      let goid := vals.getD 4 ""
      let v2 := validate_id cfg goid line (some IdContext.ANNOTATION)
      if v2.1 then
        match cfg.class_map with
        | some cm =>
          let goid2 := map_id goid cm
          let v3 := validate_id cfg goid2 line (some IdContext.ANNOTATION)
          if v3.1 then
            if cfg.entity_map.isSome then (none, v1.2 ++ v2.2 ++ v3.2)
            else
              let r := gafAssemble cfg id (vals.set 4 goid2)
              (r.1, v1.2 ++ v2.2 ++ v3.2 ++ r.2)
          else (some (line, []), v1.2 ++ v2.2 ++ v3.2)
        | none =>
          if cfg.entity_map.isSome then (none, v1.2 ++ v2.2)
          else
            let r := gafAssemble cfg id vals
            (r.1, v1.2 ++ v2.2 ++ r.2)
      else (some (line, []), v1.2 ++ v2.2)
    else (some (line, []), v1.2)
  else (none, [])

/-- `GafParser.parse_line` (lines 426-606): split on tab, right-pad a
15-column line with two empty columns, then process. -/
def gafParseLine (cfg : AssocParserConfig) (line : String) : ParseResult :=
  let vals := pySplit '\t' line
  let vals := if vals.length = 15 then vals ++ ["", ""] else vals
  gafParseVals cfg line vals

/-- One GPAD association dict (lines 366-387), for one extension disjunct. -/
def gpadMkAssoc (cfg : AssocParserConfig) (line id : String)
    (vals : List String) (extns : List Extension) : Assoc :=
  { source_line := line
    subject := ⟨id, none, none, none, none, none⟩
    object := ⟨vals.getD 3 "", none, some extns⟩
    negated := none
    qualifiers := none
    relation := some (vals.getD 2 "")
    evidence :=
      Evidence.dict (Evidence.str (vals.getD 5 ""))
        (split_pipe cfg (vals.getD 4 "")).1
        (split_pipe cfg (vals.getD 6 "")).1
    provided_by := vals.getD 9 ""
    date := vals.getD 8 ""
    subject_extensions := none
    object_extensions := none }

/-- The per-disjunct loop of `GpadParser.parse_line` (lines 358-388); the
evidence dict lists with/from before the supporting references, so the
with/from messages come first. -/
def gpadLoop (cfg : AssocParserConfig) (line id : String)
    (vals : List String) : List String → Option (List Assoc) × List Message
  | [] => (some [], [])
  | xp_or :: rest =>
    match parseExtns (pySplit ',' xp_or) with
    | none => (none, [])
    | some extns =>
      let a := gpadMkAssoc cfg line id vals extns
      let mW := (split_pipe cfg (vals.getD 6 "")).2
      let mR := (split_pipe cfg (vals.getD 4 "")).2
      match gpadLoop cfg line id vals rest with
      | (none, mRest) => (none, mW ++ mR ++ mRest)
      | (some as, mRest) => (some (a :: as), mW ++ mR ++ mRest)

/-- `GpadParser.parse_line` on the split column list (lines 333-388): any
length other than 12 makes the unpacking raise (embedded as `none`); the
line is never regenerated (GPAD has no remap handling), so the original
line is returned. -/
def gpadParseVals (cfg : AssocParserConfig) (line : String)
    (vals : List String) : ParseResult :=
  if vals.length = 12 then
    let id := pair_to_id cfg (vals.getD 0 "") (vals.getD 1 "")
    let v1 := validate_id cfg id line (some IdContext.ENTITY)
    if v1.1 then
      let goid := vals.getD 3 ""
      let v2 := validate_id cfg goid line (some IdContext.ANNOTATION)
      if v2.1 then
        let r := gpadLoop cfg line id vals (pySplit '|' (vals.getD 10 ""))
        match r with
        | (none, mL) => (none, v1.2 ++ v2.2 ++ mL)
        | (some as, mL) => (some (line, as), v1.2 ++ v2.2 ++ mL)
      else (some (line, []), v1.2 ++ v2.2)
    else (some (line, []), v1.2)
  else (none, [])

/-- `GpadParser.parse_line` (lines 333-388). -/
def gpadParseLine (cfg : AssocParserConfig) (line : String) : ParseResult :=
  gpadParseVals cfg line (pySplit '\t' line)

/-- The aspect → default-relation table of `HpoaParser.parse_line`
(lines 713-722). -/
def hpoaDefaultRelation (aspect : String) : Option String :=
  if aspect = "O" then some "has_phenotype"
  else if aspect = "I" then some "has_inheritance"
  else if aspect = "M" then some "mortality"
  else if aspect = "C" then some "has_onset"
  else none

/-- The single HPOA association dict of `HpoaParser.parse_line` (lines
690-768): hardcoded human taxon and "disease" entity type, HPOA
qualifier/negation/relation derivation (HPOA has no extension column,
hence no fan-out). -/
def hpoaMkAssoc (cfg : AssocParserConfig) (line id : String)
    (vals : List String) : Assoc :=
  let taxon := "NCBITaxon:9606"
  let synonyms :=
    if vals.getD 11 "" = "" then [] else pySplit '|' (vals.getD 11 "")
  let qualifiers := qualifierTokens (vals.getD 3 "")
  let negated := qualifiers.contains "NOT"
  let other_qualifiers := qualifiers.filter (fun q => q != "NOT")
  let relation :=
    if other_qualifiers.length > 0 then some (other_qualifiers.headD "")
    else hpoaDefaultRelation (vals.getD 10 "")
  { source_line := line
    subject :=
      ⟨id, some (vals.getD 2 ""), some "disease", none, some synonyms,
        some taxon⟩
    object := ⟨vals.getD 4 "", some taxon, none⟩
    negated := some negated
    qualifiers := some qualifiers
    relation := relation
    evidence :=
      Evidence.dict (Evidence.str (vals.getD 6 ""))
        (split_pipe cfg (vals.getD 5 "")).1
        (split_pipe cfg (vals.getD 9 "")).1
    provided_by := vals.getD 13 ""
    date := vals.getD 12 ""
    subject_extensions := none
    object_extensions := none }

/-- The single-record result of the HPOA tail: the rewritten line and the
one association, plus the `_split_pipe` messages, reference column first. -/
def hpoaAssemble (cfg : AssocParserConfig) (id : String)
    (vals : List String) : ParseResult :=
  let line := pyJoin '\t' vals
  let mR := (split_pipe cfg (vals.getD 5 "")).2
  let mW := (split_pipe cfg (vals.getD 9 "")).2
  (some (line, [hpoaMkAssoc cfg line id vals]), mR ++ mW)

/-- `HpoaParser.parse_line` on the split column list (lines 627-768): any
length other than 14 makes the unpacking raise (embedded as `none`); the
remap branches mirror GAF's, including the `TypeError` that a configured
`entity_map` forces at line regeneration. -/
def hpoaParseVals (cfg : AssocParserConfig) (line : String)
    (vals : List String) : ParseResult :=
  if vals.length = 14 then
    let id := pair_to_id cfg (vals.getD 0 "") (vals.getD 1 "")
    let v1 := validate_id cfg id line (some IdContext.ENTITY)
    if v1.1 then
      let hpoid := vals.getD 4 ""
      let v2 := validate_id cfg hpoid line (some IdContext.ANNOTATION)
      if v2.1 then
        match cfg.class_map with
        | some cm =>
          let hpoid2 := map_id hpoid cm
          let v3 := validate_id cfg hpoid2 line (some IdContext.ANNOTATION)
          if v3.1 then
            if cfg.entity_map.isSome then (none, v1.2 ++ v2.2 ++ v3.2)
            else
              let r := hpoaAssemble cfg id (vals.set 4 hpoid2)
              (r.1, v1.2 ++ v2.2 ++ v3.2 ++ r.2)
          else (some (line, []), v1.2 ++ v2.2 ++ v3.2)
        | none =>
          if cfg.entity_map.isSome then (none, v1.2 ++ v2.2)
          else
            let r := hpoaAssemble cfg id vals
            (r.1, v1.2 ++ v2.2 ++ r.2)
      else (some (line, []), v1.2 ++ v2.2)
    else (some (line, []), v1.2)
  else (none, [])

/-- `HpoaParser.parse_line` (lines 627-768). -/
def hpoaParseLine (cfg : AssocParserConfig) (line : String) : ParseResult :=
  hpoaParseVals cfg line (pySplit '\t' line)

/-- The padded column list of `GafParser.parse_line`: split on tab, a
15-entry list right-padded with two empty columns. -/
def gafVals (line : String) : List String :=
  let vals := pySplit '\t' line
  if vals.length = 15 then vals ++ ["", ""] else vals

/-- A 17-column GAF line whose qualifier column is exactly the negation
token `NOT` (aspect `C`, all other optional columns empty). -/
def c1exLine : String := "A\t1\t\tNOT\t\t\t\t\tC\t\t\t\t\t\t\t\t"

/-- The single association record the source emits for `c1exLine`. -/
def c1exAssoc : Assoc :=
  { source_line := c1exLine
    subject := ⟨"A:1", some "", some "", some "", some [], some ""⟩
    object := ⟨"", some "", none⟩
    negated := some true
    qualifiers := some ["NOT"]
    relation := some "part_of"
    evidence := Evidence.dict (Evidence.str "") [] []
    provided_by := ""
    date := ""
    subject_extensions := none
    object_extensions := none }

/-- A 14-column HPOA line whose qualifier column is exactly `NOT`
(aspect `O`). -/
def c1hpoaLine : String := "OMIM\t1\tS\tNOT\tHP:1\t\t\t\t\t\tO\t\t\t"

/-- The single association record the source emits for `c1hpoaLine`. -/
def c1hpoaAssoc : Assoc :=
  { source_line := c1hpoaLine
    subject := ⟨"OMIM:1", some "S", some "disease", none, some [],
      some "NCBITaxon:9606"⟩
    object := ⟨"HP:1", some "NCBITaxon:9606", none⟩
    negated := some true
    qualifiers := some ["NOT"]
    relation := some "has_phenotype"
    evidence := Evidence.dict (Evidence.str "") [] []
    provided_by := ""
    date := ""
    subject_extensions := none
    object_extensions := none }

/-- A 17-column GAF line with extension column `A(1)|B(2),C(3)`. -/
def c4exLine : String :=
  "A\t1\t\t\t\t\t\t\t\t\t\t\t\t\t\tA(1)|B(2),C(3)\t"

/-- The two association records the source emits for `c4exLine`: one per
extension disjunct. -/
def c4exRecs : List Assoc :=
  [{ source_line := c4exLine
     subject := ⟨"A:1", some "", some "", some "", some [], some ""⟩
     object := ⟨"", some "", none⟩
     negated := some false
     qualifiers := some []
     relation := none
     evidence := Evidence.dict (Evidence.str "") [] []
     provided_by := ""
     date := ""
     subject_extensions := none
     object_extensions := some [⟨"A", "1"⟩] },
   { source_line := c4exLine
     subject := ⟨"A:1", some "", some "", some "", some [], some ""⟩
     object := ⟨"", some "", none⟩
     negated := some false
     qualifiers := some []
     relation := none
     evidence := Evidence.dict (Evidence.dict (Evidence.str "") [] []) [] []
     provided_by := ""
     date := ""
     subject_extensions := none
     object_extensions := some [⟨"B", "2"⟩, ⟨"C", "3"⟩] }]

/-- A valid 15-column GAF line (GAF v1 shape). -/
def c5exLine : String :=
  "MGI\tMGI:101\tSymb\t\tGO:0001\tPMID:1\tIEA\t\tP\t\t\tgene\ttaxon:10090\t20200101\tMGI"

/-- A minimal valid 17-column GAF line. -/
def c5wLine : String := "A\t1\t\t\t\t\t\t\t\t\t\t\t\t\t\t\t"

/-- The single association record the source emits for `c5wLine`. -/
def c5wAssoc : Assoc :=
  { source_line := c5wLine
    subject := ⟨"A:1", some "", some "", some "", some [], some ""⟩
    object := ⟨"", some "", none⟩
    negated := some false
    qualifiers := some []
    relation := none
    evidence := Evidence.dict (Evidence.str "") [] []
    provided_by := ""
    date := ""
    subject_extensions := none
    object_extensions := none }

/-- A 15-column GAF line whose database column contains a space, so the
constructed entity id fails validation and the line is dropped. -/
def c7exLine : String := "A B\t1\t\t\t\t\t\t\t\t\t\t\t\t\t"

/-- A 17-column GAF line whose database column contains a space. -/
def c8wLine : String := "A B\t1\t\t\t\t\t\t\t\t\t\t\t\t\t\t\t"

/-- A minimal valid 14-column HPOA line. -/
def c9wLine : String := "OMIM\t1\tS\t\tHP:1\t\t\t\t\t\t\t\t\t"

/-- The single association record the source emits for `c9wLine`. -/
def c9wAssoc : Assoc :=
  { source_line := c9wLine
    subject := ⟨"OMIM:1", some "S", some "disease", none, some [],
      some "NCBITaxon:9606"⟩
    object := ⟨"HP:1", some "NCBITaxon:9606", none⟩
    negated := some false
    qualifiers := some []
    relation := none
    evidence := Evidence.dict (Evidence.str "") [] []
    provided_by := ""
    date := ""
    subject_extensions := none
    object_extensions := none }

/-- A 17-column GAF line whose reference column `P:1|b d` and with/from
column `W:1|b d` each contain an id with a space. -/
def c10wLine : String :=
  "A\t1\t\t\t\tP:1|b d\t\tW:1|b d\t\t\t\t\t\t\t\t\t"

/-- The single association record the source emits for `c10wLine`: the
invalid id `b d` is filtered out of both evidence sets. -/
def c10wAssoc : Assoc :=
  { source_line := c10wLine
    subject := ⟨"A:1", some "", some "", some "", some [], some ""⟩
    object := ⟨"", some "", none⟩
    negated := some false
    qualifiers := some []
    relation := none
    evidence := Evidence.dict (Evidence.str "") ["P:1"] ["W:1"]
    provided_by := ""
    date := ""
    subject_extensions := none
    object_extensions := none }

/-- A configuration with an entity-id remap table (the shape of the
map2MOD use case of gafparser.py line 476). -/
def c3Cfg : AssocParserConfig :=
  { remove_double_prefixes := false
    class_map := none
    entity_map := some [("UniProtKB:P12345", "MGI:97890")]
    valid_taxa := none
    class_idspaces := none }

/-- A valid 17-column GAF line whose entity id is in `c3Cfg`'s remap
table. -/
def c3Line : String :=
  "UniProtKB\tP12345\tS\t\tGO:1\t\t\t\t\t\t\t\t\t\t\t\t"

/-- A valid 14-column HPOA line whose entity id is in `c3Cfg`'s remap
table. -/
def c3HpoaLine : String := "UniProtKB\tP12345\tS\t\tHP:1\t\t\t\t\t\t\t\t\t"

theorem chSplit_cons (c a : Char) (rest : List Char) :
    chSplit c (a :: rest) =
      match chSplit c rest with
      | [] => [[]]
      | grp :: rs => if a = c then [] :: grp :: rs else (a :: grp) :: rs := rfl

theorem chSplit_ne_nil (c : Char) (l : List Char) : chSplit c l ≠ [] := by
  cases l with
  | nil => simp [chSplit]
  | cons a rest =>
    rw [chSplit_cons]
    cases h : chSplit c rest with
    | nil => simp
    | cons grp rs => by_cases hac : a = c <;> simp [hac]

theorem chJoin_chSplit (c : Char) (l : List Char) : chJoin c (chSplit c l) = l := by
  induction l with
  | nil => rfl
  | cons a rest ih =>
    rw [chSplit_cons]
    cases h : chSplit c rest with
    | nil => exact absurd h (chSplit_ne_nil c rest)
    | cons grp rs =>
      rw [h] at ih
      by_cases hac : a = c
      · subst hac
        simpa [chJoin] using congrArg (a :: ·) ih
      · simp only [if_neg hac]
        cases rs with
        | nil => simpa [chJoin] using congrArg (a :: ·) ih
        | cons r rs' => simpa [chJoin] using congrArg (a :: ·) ih

theorem mk_data (s : String) : String.mk s.data = s := rfl

theorem pyJoin_pySplit (c : Char) (s : String) : pyJoin c (pySplit c s) = s := by
  simp only [pyJoin, pySplit, List.map_map]
  have h : (String.data ∘ String.mk) = id := rfl
  rw [h, List.map_id, chJoin_chSplit]

theorem str_append_data (s t : String) : (s ++ t).data = s.data ++ t.data := by
  cases s; cases t; rfl

theorem chSplit_append_two (c : Char) (l : List Char) :
    chSplit c (l ++ [c, c]) = chSplit c l ++ [[], []] := by
  induction l with
  | nil => simp [chSplit]
  | cons a rest ih =>
    rw [show (a :: rest) ++ [c, c] = a :: (rest ++ [c, c]) from rfl]
    rw [chSplit_cons c a (rest ++ [c, c]), chSplit_cons c a rest, ih]
    cases h : chSplit c rest with
    | nil => exact absurd h (chSplit_ne_nil c rest)
    | cons grp rs =>
      simp only [h, List.cons_append]
      by_cases hac : a = c <;> simp [hac]

theorem pySplit_append_tabs (s : String) :
    pySplit '\t' (s ++ "\t\t") = pySplit '\t' s ++ ["", ""] := by
  simp only [pySplit, str_append_data]
  rw [chSplit_append_two]
  simp only [List.map_append]
  rfl

theorem chJoin_append_two (c : Char) (xs : List (List Char)) (h : xs ≠ []) :
    chJoin c (xs ++ [[], []]) = chJoin c xs ++ [c, c] := by
  induction xs with
  | nil => exact absurd rfl h
  | cons x rest ih =>
    cases rest with
    | nil => simp [chJoin]
    | cons y rs =>
      have := ih (by simp)
      simp only [List.cons_append, chJoin] at this ⊢
      cases rs with
      | nil => simp_all [chJoin]
      | cons z zs => simp_all [chJoin]

theorem pySplit_ne_nil (c : Char) (s : String) : pySplit c s ≠ [] := by
  simp only [pySplit]
  intro h
  exact chSplit_ne_nil c s.data (List.map_eq_nil_iff.mp h)

theorem pyJoin_append_tabs (vals : List String) (h : vals ≠ []) :
    pyJoin '\t' (vals ++ ["", ""]) = pyJoin '\t' vals ++ "\t\t" := by
  simp only [pyJoin, List.map_append]
  rw [show (["", ""] : List String).map String.data = [[], []] from rfl]
  rw [chJoin_append_two _ _ (by simpa using h)]
  apply String.ext
  simp [str_append_data]

theorem validate_id_fst (cfg : AssocParserConfig) (id l1 l2 : String)
    (ctx : Option IdContext) :
    (validate_id cfg id l1 ctx).1 = (validate_id cfg id l2 ctx).1 := by
  unfold validate_id
  by_cases hsp : pyContains id ' ' = true
  · simp [hsp]
  · rw [if_neg hsp, if_neg hsp]
    rcases ctx with _ | ictx
    · rfl
    · cases ictx with
      | TAXON => rfl
      | ENTITY => rfl
      | ANNOTATION =>
        rcases cfg.class_idspaces with _ | spaces
        · rfl
        · by_cases hp : getIdPrefix id ∈ spaces <;> simp [hp]

theorem validate_id_space (cfg : AssocParserConfig) (id line : String)
    (ctx : Option IdContext) (h : pyContains id ' ' = true) :
    validate_id cfg id line ctx =
      (false, [⟨Report.ERROR, line, Report.INVALID_ID, "", id⟩]) := by
  unfold validate_id
  simp [h]

theorem split_pipe_list_mem (cfg : AssocParserConfig) (l : List String)
    (x : String) (h : x ∈ (split_pipe_list cfg l).1) :
    (validate_id cfg x "" none).1 = true := by
  induction l with
  | nil => simp [split_pipe_list] at h
  | cons id rest ih =>
    simp only [split_pipe_list] at h
    by_cases hv : (validate_id cfg id "" none).1 = true
    · rw [if_pos hv] at h
      rcases List.mem_cons.mp h with rfl | hmem
      · exact hv
      · exact ih hmem
    · rw [if_neg hv] at h
      exact ih h

theorem split_pipe_not_mem (cfg : AssocParserConfig) (v x : String)
    (hx : pyContains x ' ' = true) : x ∉ (split_pipe cfg v).1 := by
  intro hmem
  unfold split_pipe at hmem
  by_cases hv : v = ""
  · simp [hv] at hmem
  · rw [if_neg hv] at hmem
    have := split_pipe_list_mem cfg _ x hmem
    rw [validate_id_space cfg x "" none hx] at this
    exact Bool.false_ne_true this

theorem split_pipe_list_msg (cfg : AssocParserConfig) (l : List String)
    (x : String) (hx : pyContains x ' ' = true) (h : x ∈ l) :
    (⟨Report.ERROR, "", Report.INVALID_ID, "", x⟩ : Message) ∈
      (split_pipe_list cfg l).2 := by
  induction l with
  | nil => simp at h
  | cons id rest ih =>
    simp only [split_pipe_list, List.mem_append]
    rcases List.mem_cons.mp h with rfl | hmem
    · left
      rw [validate_id_space cfg x "" none hx]
      simp
    · right
      exact ih hmem

theorem split_pipe_msg (cfg : AssocParserConfig) (v x : String)
    (hx : pyContains x ' ' = true) (h : x ∈ pySplit '|' v) :
    (⟨Report.ERROR, "", Report.INVALID_ID, "", x⟩ : Message) ∈
      (split_pipe cfg v).2 := by
  unfold split_pipe
  by_cases hv : v = ""
  · subst hv
    have : pySplit '|' "" = [""] := rfl
    rw [this] at h
    simp at h
    subst h
    exact absurd hx (by simp [pyContains])
  · rw [if_neg hv]
    exact split_pipe_list_msg cfg _ x hx h

theorem gafParseLine_eq (cfg : AssocParserConfig) (line : String) :
    gafParseLine cfg line = gafParseVals cfg line (gafVals line) := rfl

theorem parseAllExtns_length (xs : List String) (es : List (List Extension))
    (h : parseAllExtns xs = some es) : es.length = xs.length := by
  induction xs generalizing es with
  | nil => simp [parseAllExtns] at h; subst h; rfl
  | cons x rest ih =>
    simp only [parseAllExtns] at h
    cases hpe : parseExtns (pySplit ',' x) with
    | none => rw [hpe] at h; exact absurd h (by simp)
    | some e =>
      rw [hpe] at h
      cases hpa : parseAllExtns rest with
      | none => rw [hpa] at h; exact absurd h (by simp)
      | some es' =>
        rw [hpa] at h
        simp only [Option.some.injEq] at h
        subst h
        simp [ih es' hpa]

theorem gafLoop_fst (cfg : AssocParserConfig) (line id : String)
    (vals : List String) (taxon : String) (syn : List String) :
    ∀ (ev : Evidence) (xs : List String),
      (gafLoop cfg line id vals taxon syn ev xs).1 =
        (parseAllExtns xs).map
          (gafExpected cfg line id vals taxon syn ev) := by
  intro ev xs
  induction xs generalizing ev with
  | nil => simp [gafLoop, parseAllExtns, gafExpected]
  | cons x rest ih =>
    simp only [gafLoop, parseAllExtns]
    cases hpe : parseExtns (pySplit ',' x) with
    | none => simp
    | some e =>
      rcases hrec : gafLoop cfg line id vals taxon syn
          (Evidence.dict ev (split_pipe cfg (vals.getD 5 "")).1
            (split_pipe cfg (vals.getD 7 "")).1) rest with ⟨o, m⟩
      have ih' := ih (Evidence.dict ev (split_pipe cfg (vals.getD 5 "")).1
        (split_pipe cfg (vals.getD 7 "")).1)
      rw [hrec] at ih'
      cases o with
      | none =>
        simp only at ih'
        cases hpa : parseAllExtns rest with
        | none => simp
        | some es => rw [hpa] at ih'; simp at ih'
      | some as =>
        simp only at ih'
        cases hpa : parseAllExtns rest with
        | none => rw [hpa] at ih'; simp at ih'
        | some es =>
          rw [hpa] at ih'
          simp only [Option.map_some', Option.some.injEq] at ih'
          subst ih'
          simp [gafExpected]

theorem gafExpected_length (cfg : AssocParserConfig) (line id : String)
    (vals : List String) (taxon : String) (syn : List String) :
    ∀ (ev : Evidence) (es : List (List Extension)),
      (gafExpected cfg line id vals taxon syn ev es).length = es.length := by
  intro ev es
  induction es generalizing ev with
  | nil => rfl
  | cons e es ih => simp [gafExpected, ih]

theorem gafExpected_map_extns (cfg : AssocParserConfig) (line id : String)
    (vals : List String) (taxon : String) (syn : List String) :
    ∀ (ev : Evidence) (es : List (List Extension)),
      (gafExpected cfg line id vals taxon syn ev es).map
          (fun a => a.object_extensions) =
        es.map (fun e => if e.length > 0 then some e else none) := by
  intro ev es
  induction es generalizing ev with
  | nil => rfl
  | cons e es ih =>
    simp only [gafExpected, List.map_cons, ih]
    rfl

theorem gafExpected_mem (cfg : AssocParserConfig) (line id : String)
    (vals : List String) (taxon : String) (syn : List String) :
    ∀ (ev : Evidence) (es : List (List Extension)) (a : Assoc),
      a ∈ gafExpected cfg line id vals taxon syn ev es →
      ∃ e ev0, a = gafMkAssoc cfg line id vals taxon syn e
        (Evidence.dict ev0 (split_pipe cfg (vals.getD 5 "")).1
          (split_pipe cfg (vals.getD 7 "")).1) := by
  intro ev es
  induction es generalizing ev with
  | nil => intro a ha; simp [gafExpected] at ha
  | cons e es ih =>
    intro a ha
    simp only [gafExpected, List.mem_cons] at ha
    rcases ha with rfl | ha
    · exact ⟨e, ev, rfl⟩
    · exact ih _ a ha

theorem gafLoop_msg (cfg : AssocParserConfig) (line id : String)
    (vals : List String) (taxon : String) (syn : List String)
    (ev : Evidence) (x : String) (rest : List String) (as : List Assoc)
    (h : (gafLoop cfg line id vals taxon syn ev (x :: rest)).1 = some as)
    (m : Message)
    (hm : m ∈ (split_pipe cfg (vals.getD 5 "")).2 ∨
      m ∈ (split_pipe cfg (vals.getD 7 "")).2) :
    m ∈ (gafLoop cfg line id vals taxon syn ev (x :: rest)).2 := by
  simp only [gafLoop] at h ⊢
  cases hpe : parseExtns (pySplit ',' x) with
  | none => rw [hpe] at h; exact absurd h (by simp)
  | some e =>
    rw [hpe] at h
    rcases hrec : gafLoop cfg line id vals taxon syn
        (Evidence.dict ev (split_pipe cfg (vals.getD 5 "")).1
          (split_pipe cfg (vals.getD 7 "")).1) rest with ⟨o, mRest⟩
    rw [hrec] at h
    cases o with
    | none => exact Option.noConfusion h
    | some as' =>
      rcases hm with hm | hm
      · exact List.mem_append_left _ (List.mem_append_left _ hm)
      · exact List.mem_append_left _ (List.mem_append_right _ hm)

theorem gafAssemble_inv (cfg : AssocParserConfig) (id : String)
    (va : List String) (l' : String) (recs : List Assoc)
    (h : (gafAssemble cfg id va).1 = some (l', recs)) :
    l' = pyJoin '\t' va ∧
    ∃ es, parseAllExtns (pySplit '|' (va.getD 15 "")) = some es ∧
      recs = gafExpected cfg (pyJoin '\t' va) id va (gafTaxonOf cfg va)
        (gafSynOf va) (Evidence.str (va.getD 6 "")) es := by
  have hfst := gafLoop_fst cfg (pyJoin '\t' va) id va (gafTaxonOf cfg va)
    (gafSynOf va) (Evidence.str (va.getD 6 ""))
    (pySplit '|' (va.getD 15 ""))
  simp only [gafAssemble] at h
  rcases hrec : gafLoop cfg (pyJoin '\t' va) id va (gafTaxonOf cfg va)
      (gafSynOf va) (Evidence.str (va.getD 6 ""))
      (pySplit '|' (va.getD 15 "")) with ⟨o, mL⟩
  rw [hrec] at h hfst
  cases o with
  | none => exact absurd h (by simp)
  | some assocs =>
    simp only [Option.some.injEq, Prod.mk.injEq] at h
    obtain ⟨hl, hr⟩ := h
    refine ⟨hl.symm, ?_⟩
    simp only at hfst
    cases hpa : parseAllExtns (pySplit '|' (va.getD 15 "")) with
    | none => rw [hpa] at hfst; simp at hfst
    | some es =>
      rw [hpa] at hfst
      simp only [Option.map_some', Option.some.injEq] at hfst
      exact ⟨es, rfl, hr ▸ hfst⟩

theorem gafAssemble_msg (cfg : AssocParserConfig) (id : String)
    (va : List String) (l' : String) (recs : List Assoc)
    (h : (gafAssemble cfg id va).1 = some (l', recs)) (m : Message)
    (hm : m ∈ (split_pipe cfg (va.getD 5 "")).2 ∨
      m ∈ (split_pipe cfg (va.getD 7 "")).2) :
    m ∈ (gafAssemble cfg id va).2 := by
  rcases hxs : pySplit '|' (va.getD 15 "") with _ | ⟨x, rest⟩
  · exact absurd hxs (pySplit_ne_nil '|' _)
  · simp only [gafAssemble, hxs] at h ⊢
    rcases hrec : gafLoop cfg (pyJoin '\t' va) id va (gafTaxonOf cfg va)
        (gafSynOf va) (Evidence.str (va.getD 6 "")) (x :: rest) with ⟨o, mL⟩
    rw [hrec] at h
    cases o with
    | none => exact Option.noConfusion h
    | some assocs =>
      have hin := gafLoop_msg cfg (pyJoin '\t' va) id va (gafTaxonOf cfg va)
        (gafSynOf va) (Evidence.str (va.getD 6 "")) x rest assocs
        (by rw [hrec]) m hm
      rw [hrec] at hin
      exact List.mem_append_right _ hin

theorem getD_set_ne {α : Type} (l : List α) (i j : Nat) (a d : α)
    (h : i ≠ j) : (l.set i a).getD j d = l.getD j d := by
  simp only [List.getD]
  rw [List.get?_set_ne]
  exact h


theorem gafParseVals_acc1 (cfg : AssocParserConfig) (line : String)
    (vals : List String) (hlen : vals.length = 17)
    (hcm : cfg.class_map = none) (hem : cfg.entity_map = none)
    (h1 : (validate_id cfg (pair_to_id cfg (vals.getD 0 "") (vals.getD 1 ""))
      line (some IdContext.ENTITY)).1 = true)
    (h2 : (validate_id cfg (vals.getD 4 "") line
      (some IdContext.ANNOTATION)).1 = true) :
    gafParseVals cfg line vals =
      ((gafAssemble cfg (pair_to_id cfg (vals.getD 0 "") (vals.getD 1 ""))
          vals).1,
        (validate_id cfg (pair_to_id cfg (vals.getD 0 "") (vals.getD 1 ""))
            line (some IdContext.ENTITY)).2 ++
          (validate_id cfg (vals.getD 4 "") line
            (some IdContext.ANNOTATION)).2 ++
          (gafAssemble cfg (pair_to_id cfg (vals.getD 0 "") (vals.getD 1 ""))
            vals).2) := by
  simp only [gafParseVals, hlen, h1, h2, hcm, hem, eq_self_iff_true, if_true,
    Option.isSome_none, Bool.false_eq_true, if_false, ite_true, ite_false]

theorem gafParseVals_len (cfg : AssocParserConfig) (line : String)
    (vals : List String) (hlen : ¬ vals.length = 17) :
    gafParseVals cfg line vals = (none, []) := by
  simp only [gafParseVals, if_neg hlen]

theorem gafParseVals_drop1 (cfg : AssocParserConfig) (line : String)
    (vals : List String) (hlen : vals.length = 17)
    (h1 : (validate_id cfg (pair_to_id cfg (vals.getD 0 "") (vals.getD 1 ""))
      line (some IdContext.ENTITY)).1 = false) :
    gafParseVals cfg line vals = (some (line, []), (validate_id cfg (pair_to_id cfg (vals.getD 0 "") (vals.getD 1 ""))
      line (some IdContext.ENTITY)).2) := by
  simp only [gafParseVals, hlen, h1, eq_self_iff_true, if_true,
    Option.isSome_none, Option.isSome_some, Bool.false_eq_true, if_false,
    ite_true, ite_false]

theorem gafParseVals_drop2 (cfg : AssocParserConfig) (line : String)
    (vals : List String) (hlen : vals.length = 17)
    (h1 : (validate_id cfg (pair_to_id cfg (vals.getD 0 "") (vals.getD 1 ""))
      line (some IdContext.ENTITY)).1 = true)
    (h2 : (validate_id cfg (vals.getD 4 "") line (some IdContext.ANNOTATION)).1 = false) :
    gafParseVals cfg line vals =
      (some (line, []), (validate_id cfg (pair_to_id cfg (vals.getD 0 "") (vals.getD 1 ""))
      line (some IdContext.ENTITY)).2 ++ (validate_id cfg (vals.getD 4 "") line (some IdContext.ANNOTATION)).2) := by
  simp only [gafParseVals, hlen, h1, h2, eq_self_iff_true, if_true,
    Option.isSome_none, Option.isSome_some, Bool.false_eq_true, if_false,
    ite_true, ite_false]

theorem gafParseVals_drop3 (cfg : AssocParserConfig) (line : String)
    (vals : List String) (cm : List (String × String))
    (hlen : vals.length = 17) (hcm : cfg.class_map = some cm)
    (h1 : (validate_id cfg (pair_to_id cfg (vals.getD 0 "") (vals.getD 1 ""))
      line (some IdContext.ENTITY)).1 = true)
    (h2 : (validate_id cfg (vals.getD 4 "") line (some IdContext.ANNOTATION)).1 = true)
    (h3 : (validate_id cfg (map_id (vals.getD 4 "") cm) line
      (some IdContext.ANNOTATION)).1 = false) :
    gafParseVals cfg line vals =
      (some (line, []), (validate_id cfg (pair_to_id cfg (vals.getD 0 "") (vals.getD 1 ""))
      line (some IdContext.ENTITY)).2 ++ (validate_id cfg (vals.getD 4 "") line (some IdContext.ANNOTATION)).2 ++ (validate_id cfg (map_id (vals.getD 4 "") cm) line
      (some IdContext.ANNOTATION)).2) := by
  simp only [gafParseVals, hlen, h1, h2, h3, hcm, eq_self_iff_true, if_true,
    Option.isSome_none, Option.isSome_some, Bool.false_eq_true, if_false,
    ite_true, ite_false]

theorem gafParseVals_crash1 (cfg : AssocParserConfig) (line : String)
    (vals : List String) (em : List (String × String))
    (hlen : vals.length = 17) (hcm : cfg.class_map = none)
    (hem : cfg.entity_map = some em)
    (h1 : (validate_id cfg (pair_to_id cfg (vals.getD 0 "") (vals.getD 1 ""))
      line (some IdContext.ENTITY)).1 = true)
    (h2 : (validate_id cfg (vals.getD 4 "") line (some IdContext.ANNOTATION)).1 = true) :
    gafParseVals cfg line vals = (none, (validate_id cfg (pair_to_id cfg (vals.getD 0 "") (vals.getD 1 ""))
      line (some IdContext.ENTITY)).2 ++ (validate_id cfg (vals.getD 4 "") line (some IdContext.ANNOTATION)).2) := by
  simp only [gafParseVals, hlen, h1, h2, hcm, hem, eq_self_iff_true, if_true,
    Option.isSome_none, Option.isSome_some, Bool.false_eq_true, if_false,
    ite_true, ite_false]

theorem gafParseVals_crash2 (cfg : AssocParserConfig) (line : String)
    (vals : List String) (cm em : List (String × String))
    (hlen : vals.length = 17) (hcm : cfg.class_map = some cm)
    (hem : cfg.entity_map = some em)
    (h1 : (validate_id cfg (pair_to_id cfg (vals.getD 0 "") (vals.getD 1 ""))
      line (some IdContext.ENTITY)).1 = true)
    (h2 : (validate_id cfg (vals.getD 4 "") line (some IdContext.ANNOTATION)).1 = true)
    (h3 : (validate_id cfg (map_id (vals.getD 4 "") cm) line
      (some IdContext.ANNOTATION)).1 = true) :
    gafParseVals cfg line vals =
      (none, (validate_id cfg (pair_to_id cfg (vals.getD 0 "") (vals.getD 1 ""))
      line (some IdContext.ENTITY)).2 ++ (validate_id cfg (vals.getD 4 "") line (some IdContext.ANNOTATION)).2 ++ (validate_id cfg (map_id (vals.getD 4 "") cm) line
      (some IdContext.ANNOTATION)).2) := by
  simp only [gafParseVals, hlen, h1, h2, h3, hcm, hem, eq_self_iff_true, if_true,
    Option.isSome_none, Option.isSome_some, Bool.false_eq_true, if_false,
    ite_true, ite_false]

theorem gafParseVals_acc2 (cfg : AssocParserConfig) (line : String)
    (vals : List String) (cm : List (String × String))
    (hlen : vals.length = 17) (hcm : cfg.class_map = some cm)
    (hem : cfg.entity_map = none)
    (h1 : (validate_id cfg (pair_to_id cfg (vals.getD 0 "") (vals.getD 1 ""))
      line (some IdContext.ENTITY)).1 = true)
    (h2 : (validate_id cfg (vals.getD 4 "") line (some IdContext.ANNOTATION)).1 = true)
    (h3 : (validate_id cfg (map_id (vals.getD 4 "") cm) line
      (some IdContext.ANNOTATION)).1 = true) :
    gafParseVals cfg line vals =
      ((gafAssemble cfg (pair_to_id cfg (vals.getD 0 "") (vals.getD 1 ""))
          (vals.set 4 (map_id (vals.getD 4 "") cm))).1,
        (validate_id cfg (pair_to_id cfg (vals.getD 0 "") (vals.getD 1 ""))
      line (some IdContext.ENTITY)).2 ++ (validate_id cfg (vals.getD 4 "") line (some IdContext.ANNOTATION)).2 ++ (validate_id cfg (map_id (vals.getD 4 "") cm) line
      (some IdContext.ANNOTATION)).2 ++
          (gafAssemble cfg (pair_to_id cfg (vals.getD 0 "") (vals.getD 1 ""))
            (vals.set 4 (map_id (vals.getD 4 "") cm))).2) := by
  simp only [gafParseVals, hlen, h1, h2, h3, hcm, hem, eq_self_iff_true, if_true,
    Option.isSome_none, Option.isSome_some, Bool.false_eq_true, if_false,
    ite_true, ite_false]

theorem gpadParseVals_len (cfg : AssocParserConfig) (line : String)
    (vals : List String) (hlen : ¬ vals.length = 12) :
    gpadParseVals cfg line vals = (none, []) := by
  simp only [gpadParseVals, if_neg hlen]

theorem gpadParseVals_drop1 (cfg : AssocParserConfig) (line : String)
    (vals : List String) (hlen : vals.length = 12)
    (h1 : (validate_id cfg (pair_to_id cfg (vals.getD 0 "") (vals.getD 1 ""))
      line (some IdContext.ENTITY)).1 = false) :
    gpadParseVals cfg line vals = (some (line, []), (validate_id cfg (pair_to_id cfg (vals.getD 0 "") (vals.getD 1 ""))
      line (some IdContext.ENTITY)).2) := by
  simp only [gpadParseVals, hlen, h1, eq_self_iff_true, if_true,
    Option.isSome_none, Option.isSome_some, Bool.false_eq_true, if_false,
    ite_true, ite_false]

theorem gpadParseVals_drop2 (cfg : AssocParserConfig) (line : String)
    (vals : List String) (hlen : vals.length = 12)
    (h1 : (validate_id cfg (pair_to_id cfg (vals.getD 0 "") (vals.getD 1 ""))
      line (some IdContext.ENTITY)).1 = true)
    (h2 : (validate_id cfg (vals.getD 3 "") line (some IdContext.ANNOTATION)).1 = false) :
    gpadParseVals cfg line vals =
      (some (line, []), (validate_id cfg (pair_to_id cfg (vals.getD 0 "") (vals.getD 1 ""))
      line (some IdContext.ENTITY)).2 ++ (validate_id cfg (vals.getD 3 "") line (some IdContext.ANNOTATION)).2) := by
  simp only [gpadParseVals, hlen, h1, h2, eq_self_iff_true, if_true,
    Option.isSome_none, Option.isSome_some, Bool.false_eq_true, if_false,
    ite_true, ite_false]

theorem gpadParseVals_acc (cfg : AssocParserConfig) (line : String)
    (vals : List String) (hlen : vals.length = 12)
    (h1 : (validate_id cfg (pair_to_id cfg (vals.getD 0 "") (vals.getD 1 ""))
      line (some IdContext.ENTITY)).1 = true)
    (h2 : (validate_id cfg (vals.getD 3 "") line (some IdContext.ANNOTATION)).1 = true) :
    gpadParseVals cfg line vals =
      ((gpadLoop cfg line
          (pair_to_id cfg (vals.getD 0 "") (vals.getD 1 "")) vals
          (pySplit '|' (vals.getD 10 ""))).1.map (fun as => (line, as)),
        (validate_id cfg (pair_to_id cfg (vals.getD 0 "") (vals.getD 1 ""))
      line (some IdContext.ENTITY)).2 ++ (validate_id cfg (vals.getD 3 "") line (some IdContext.ANNOTATION)).2 ++
          (gpadLoop cfg line
            (pair_to_id cfg (vals.getD 0 "") (vals.getD 1 "")) vals
            (pySplit '|' (vals.getD 10 ""))).2) := by
  simp only [gpadParseVals, hlen, h1, h2, eq_self_iff_true, if_true,
    Option.isSome_none, Option.isSome_some, Bool.false_eq_true, if_false,
    ite_true, ite_false]
  rcases hrec : gpadLoop cfg line
      (pair_to_id cfg (vals.getD 0 "") (vals.getD 1 "")) vals
      (pySplit '|' (vals.getD 10 "")) with ⟨o, mL⟩
  cases o with
  | none => rfl
  | some as => rfl

theorem hpoaParseVals_len (cfg : AssocParserConfig) (line : String)
    (vals : List String) (hlen : ¬ vals.length = 14) :
    hpoaParseVals cfg line vals = (none, []) := by
  simp only [hpoaParseVals, if_neg hlen]

theorem hpoaParseVals_drop1 (cfg : AssocParserConfig) (line : String)
    (vals : List String) (hlen : vals.length = 14)
    (h1 : (validate_id cfg (pair_to_id cfg (vals.getD 0 "") (vals.getD 1 ""))
      line (some IdContext.ENTITY)).1 = false) :
    hpoaParseVals cfg line vals = (some (line, []), (validate_id cfg (pair_to_id cfg (vals.getD 0 "") (vals.getD 1 ""))
      line (some IdContext.ENTITY)).2) := by
  simp only [hpoaParseVals, hlen, h1, eq_self_iff_true, if_true,
    Option.isSome_none, Option.isSome_some, Bool.false_eq_true, if_false,
    ite_true, ite_false]

theorem hpoaParseVals_drop2 (cfg : AssocParserConfig) (line : String)
    (vals : List String) (hlen : vals.length = 14)
    (h1 : (validate_id cfg (pair_to_id cfg (vals.getD 0 "") (vals.getD 1 ""))
      line (some IdContext.ENTITY)).1 = true)
    (h2 : (validate_id cfg (vals.getD 4 "") line (some IdContext.ANNOTATION)).1 = false) :
    hpoaParseVals cfg line vals =
      (some (line, []), (validate_id cfg (pair_to_id cfg (vals.getD 0 "") (vals.getD 1 ""))
      line (some IdContext.ENTITY)).2 ++ (validate_id cfg (vals.getD 4 "") line (some IdContext.ANNOTATION)).2) := by
  simp only [hpoaParseVals, hlen, h1, h2, eq_self_iff_true, if_true,
    Option.isSome_none, Option.isSome_some, Bool.false_eq_true, if_false,
    ite_true, ite_false]

theorem hpoaParseVals_drop3 (cfg : AssocParserConfig) (line : String)
    (vals : List String) (cm : List (String × String))
    (hlen : vals.length = 14) (hcm : cfg.class_map = some cm)
    (h1 : (validate_id cfg (pair_to_id cfg (vals.getD 0 "") (vals.getD 1 ""))
      line (some IdContext.ENTITY)).1 = true)
    (h2 : (validate_id cfg (vals.getD 4 "") line (some IdContext.ANNOTATION)).1 = true)
    (h3 : (validate_id cfg (map_id (vals.getD 4 "") cm) line
      (some IdContext.ANNOTATION)).1 = false) :
    hpoaParseVals cfg line vals =
      (some (line, []), (validate_id cfg (pair_to_id cfg (vals.getD 0 "") (vals.getD 1 ""))
      line (some IdContext.ENTITY)).2 ++ (validate_id cfg (vals.getD 4 "") line (some IdContext.ANNOTATION)).2 ++ (validate_id cfg (map_id (vals.getD 4 "") cm) line
      (some IdContext.ANNOTATION)).2) := by
  simp only [hpoaParseVals, hlen, h1, h2, h3, hcm, eq_self_iff_true, if_true,
    Option.isSome_none, Option.isSome_some, Bool.false_eq_true, if_false,
    ite_true, ite_false]

theorem hpoaParseVals_crash1 (cfg : AssocParserConfig) (line : String)
    (vals : List String) (em : List (String × String))
    (hlen : vals.length = 14) (hcm : cfg.class_map = none)
    (hem : cfg.entity_map = some em)
    (h1 : (validate_id cfg (pair_to_id cfg (vals.getD 0 "") (vals.getD 1 ""))
      line (some IdContext.ENTITY)).1 = true)
    (h2 : (validate_id cfg (vals.getD 4 "") line (some IdContext.ANNOTATION)).1 = true) :
    hpoaParseVals cfg line vals = (none, (validate_id cfg (pair_to_id cfg (vals.getD 0 "") (vals.getD 1 ""))
      line (some IdContext.ENTITY)).2 ++ (validate_id cfg (vals.getD 4 "") line (some IdContext.ANNOTATION)).2) := by
  simp only [hpoaParseVals, hlen, h1, h2, hcm, hem, eq_self_iff_true, if_true,
    Option.isSome_none, Option.isSome_some, Bool.false_eq_true, if_false,
    ite_true, ite_false]

theorem hpoaParseVals_crash2 (cfg : AssocParserConfig) (line : String)
    (vals : List String) (cm em : List (String × String))
    (hlen : vals.length = 14) (hcm : cfg.class_map = some cm)
    (hem : cfg.entity_map = some em)
    (h1 : (validate_id cfg (pair_to_id cfg (vals.getD 0 "") (vals.getD 1 ""))
      line (some IdContext.ENTITY)).1 = true)
    (h2 : (validate_id cfg (vals.getD 4 "") line (some IdContext.ANNOTATION)).1 = true)
    (h3 : (validate_id cfg (map_id (vals.getD 4 "") cm) line
      (some IdContext.ANNOTATION)).1 = true) :
    hpoaParseVals cfg line vals =
      (none, (validate_id cfg (pair_to_id cfg (vals.getD 0 "") (vals.getD 1 ""))
      line (some IdContext.ENTITY)).2 ++ (validate_id cfg (vals.getD 4 "") line (some IdContext.ANNOTATION)).2 ++ (validate_id cfg (map_id (vals.getD 4 "") cm) line
      (some IdContext.ANNOTATION)).2) := by
  simp only [hpoaParseVals, hlen, h1, h2, h3, hcm, hem, eq_self_iff_true, if_true,
    Option.isSome_none, Option.isSome_some, Bool.false_eq_true, if_false,
    ite_true, ite_false]

theorem hpoaParseVals_acc1 (cfg : AssocParserConfig) (line : String)
    (vals : List String) (hlen : vals.length = 14)
    (hcm : cfg.class_map = none) (hem : cfg.entity_map = none)
    (h1 : (validate_id cfg (pair_to_id cfg (vals.getD 0 "") (vals.getD 1 ""))
      line (some IdContext.ENTITY)).1 = true)
    (h2 : (validate_id cfg (vals.getD 4 "") line (some IdContext.ANNOTATION)).1 = true) :
    hpoaParseVals cfg line vals =
      ((hpoaAssemble cfg (pair_to_id cfg (vals.getD 0 "") (vals.getD 1 ""))
          vals).1,
        (validate_id cfg (pair_to_id cfg (vals.getD 0 "") (vals.getD 1 ""))
      line (some IdContext.ENTITY)).2 ++ (validate_id cfg (vals.getD 4 "") line (some IdContext.ANNOTATION)).2 ++
          (hpoaAssemble cfg (pair_to_id cfg (vals.getD 0 "") (vals.getD 1 ""))
            vals).2) := by
  simp only [hpoaParseVals, hlen, h1, h2, hcm, hem, eq_self_iff_true, if_true,
    Option.isSome_none, Option.isSome_some, Bool.false_eq_true, if_false,
    ite_true, ite_false]

theorem hpoaParseVals_acc2 (cfg : AssocParserConfig) (line : String)
    (vals : List String) (cm : List (String × String))
    (hlen : vals.length = 14) (hcm : cfg.class_map = some cm)
    (hem : cfg.entity_map = none)
    (h1 : (validate_id cfg (pair_to_id cfg (vals.getD 0 "") (vals.getD 1 ""))
      line (some IdContext.ENTITY)).1 = true)
    (h2 : (validate_id cfg (vals.getD 4 "") line (some IdContext.ANNOTATION)).1 = true)
    (h3 : (validate_id cfg (map_id (vals.getD 4 "") cm) line
      (some IdContext.ANNOTATION)).1 = true) :
    hpoaParseVals cfg line vals =
      ((hpoaAssemble cfg (pair_to_id cfg (vals.getD 0 "") (vals.getD 1 ""))
          (vals.set 4 (map_id (vals.getD 4 "") cm))).1,
        (validate_id cfg (pair_to_id cfg (vals.getD 0 "") (vals.getD 1 ""))
      line (some IdContext.ENTITY)).2 ++ (validate_id cfg (vals.getD 4 "") line (some IdContext.ANNOTATION)).2 ++ (validate_id cfg (map_id (vals.getD 4 "") cm) line
      (some IdContext.ANNOTATION)).2 ++
          (hpoaAssemble cfg (pair_to_id cfg (vals.getD 0 "") (vals.getD 1 ""))
            (vals.set 4 (map_id (vals.getD 4 "") cm))).2) := by
  simp only [hpoaParseVals, hlen, h1, h2, h3, hcm, hem, eq_self_iff_true, if_true,
    Option.isSome_none, Option.isSome_some, Bool.false_eq_true, if_false,
    ite_true, ite_false]

theorem gpadLoop_fst (cfg : AssocParserConfig) (line id : String)
    (vals : List String) :
    ∀ xs, (gpadLoop cfg line id vals xs).1 =
      (parseAllExtns xs).map (List.map (gpadMkAssoc cfg line id vals)) := by
  intro xs
  induction xs with
  | nil => simp [gpadLoop, parseAllExtns]
  | cons x rest ih =>
    simp only [gpadLoop, parseAllExtns]
    cases hpe : parseExtns (pySplit ',' x) with
    | none => simp
    | some e =>
      rcases hrec : gpadLoop cfg line id vals rest with ⟨o, m⟩
      rw [hrec] at ih
      cases o with
      | none =>
        simp only at ih
        cases hpa : parseAllExtns rest with
        | none => simp
        | some es => rw [hpa] at ih; simp at ih
      | some as =>
        simp only at ih
        cases hpa : parseAllExtns rest with
        | none => rw [hpa] at ih; simp at ih
        | some es =>
          rw [hpa] at ih
          simp only [Option.map_some', Option.some.injEq] at ih
          subst ih
          simp

theorem gafParseVals_inv (cfg : AssocParserConfig) (line : String)
    (vals : List String) (l' : String) (recs : List Assoc)
    (h : (gafParseVals cfg line vals).1 = some (l', recs)) (hne : recs ≠ []) :
    ∃ va, (va = vals ∨ ∃ g, va = vals.set 4 g) ∧
      cfg.entity_map = none ∧
      (cfg.class_map = none → va = vals) ∧
      (gafAssemble cfg (pair_to_id cfg (vals.getD 0 "") (vals.getD 1 ""))
        va).1 = some (l', recs) ∧
      (∀ m, m ∈ (gafAssemble cfg
          (pair_to_id cfg (vals.getD 0 "") (vals.getD 1 "")) va).2 →
        m ∈ (gafParseVals cfg line vals).2) := by
  by_cases hlen : vals.length = 17
  · cases h1 : (validate_id cfg
        (pair_to_id cfg (vals.getD 0 "") (vals.getD 1 "")) line
        (some IdContext.ENTITY)).1 with
    | false =>
      rw [gafParseVals_drop1 cfg line vals hlen h1] at h
      have h' : some (line, ([] : List Assoc)) = some (l', recs) := h
      exact absurd ((Prod.mk.injEq _ _ _ _).mp (Option.some.inj h')).2.symm hne
    | true =>
      cases h2 : (validate_id cfg (vals.getD 4 "") line
          (some IdContext.ANNOTATION)).1 with
      | false =>
        rw [gafParseVals_drop2 cfg line vals hlen h1 h2] at h
        have h' : some (line, ([] : List Assoc)) = some (l', recs) := h
        exact absurd ((Prod.mk.injEq _ _ _ _).mp (Option.some.inj h')).2.symm
          hne
      | true =>
        rcases hcm : cfg.class_map with _ | cm
        · rcases hem : cfg.entity_map with _ | em
          · rw [gafParseVals_acc1 cfg line vals hlen hcm hem h1 h2] at h ⊢
            refine ⟨vals, Or.inl rfl, rfl, fun _ => rfl, h, fun m hm => ?_⟩
            exact List.mem_append_right _ hm
          · rw [gafParseVals_crash1 cfg line vals em hlen hcm hem h1 h2] at h
            exact Option.noConfusion h
        · cases h3 : (validate_id cfg (map_id (vals.getD 4 "") cm) line
              (some IdContext.ANNOTATION)).1 with
          | false =>
            rw [gafParseVals_drop3 cfg line vals cm hlen hcm h1 h2 h3] at h
            have h' : some (line, ([] : List Assoc)) = some (l', recs) := h
            exact absurd
              ((Prod.mk.injEq _ _ _ _).mp (Option.some.inj h')).2.symm hne
          | true =>
            rcases hem : cfg.entity_map with _ | em
            · rw [gafParseVals_acc2 cfg line vals cm hlen hcm hem h1 h2 h3]
                at h ⊢
              refine ⟨vals.set 4 (map_id (vals.getD 4 "") cm),
                Or.inr ⟨_, rfl⟩, rfl,
                fun hn => Option.noConfusion hn, h, fun m hm => ?_⟩
              exact List.mem_append_right _ hm
            · rw [gafParseVals_crash2 cfg line vals cm em hlen hcm hem
                h1 h2 h3] at h
              exact Option.noConfusion h
  · rw [gafParseVals_len cfg line vals hlen] at h
    exact Option.noConfusion h

theorem gpadParseVals_inv (cfg : AssocParserConfig) (line : String)
    (vals : List String) (l' : String) (recs : List Assoc)
    (h : (gpadParseVals cfg line vals).1 = some (l', recs))
    (hne : recs ≠ []) :
    l' = line ∧
    ∃ es, parseAllExtns (pySplit '|' (vals.getD 10 "")) = some es ∧
      recs = es.map (gpadMkAssoc cfg line
        (pair_to_id cfg (vals.getD 0 "") (vals.getD 1 "")) vals) := by
  by_cases hlen : vals.length = 12
  · cases h1 : (validate_id cfg
        (pair_to_id cfg (vals.getD 0 "") (vals.getD 1 "")) line
        (some IdContext.ENTITY)).1 with
    | false =>
      rw [gpadParseVals_drop1 cfg line vals hlen h1] at h
      have h' : some (line, ([] : List Assoc)) = some (l', recs) := h
      exact absurd ((Prod.mk.injEq _ _ _ _).mp (Option.some.inj h')).2.symm hne
    | true =>
      cases h2 : (validate_id cfg (vals.getD 3 "") line
          (some IdContext.ANNOTATION)).1 with
      | false =>
        rw [gpadParseVals_drop2 cfg line vals hlen h1 h2] at h
        have h' : some (line, ([] : List Assoc)) = some (l', recs) := h
        exact absurd ((Prod.mk.injEq _ _ _ _).mp (Option.some.inj h')).2.symm
          hne
      | true =>
        rw [gpadParseVals_acc cfg line vals hlen h1 h2] at h
        have hfst := gpadLoop_fst cfg line
          (pair_to_id cfg (vals.getD 0 "") (vals.getD 1 "")) vals
          (pySplit '|' (vals.getD 10 ""))
        rcases hrec : (gpadLoop cfg line
            (pair_to_id cfg (vals.getD 0 "") (vals.getD 1 "")) vals
            (pySplit '|' (vals.getD 10 ""))).1 with _ | as
        · rw [hrec] at h
          exact Option.noConfusion h
        · rw [hrec] at h
          have h' : some (line, as) = some (l', recs) := h
          obtain ⟨hl, hr⟩ := (Prod.mk.injEq _ _ _ _).mp (Option.some.inj h')
          rw [hrec] at hfst
          cases hpa : parseAllExtns (pySplit '|' (vals.getD 10 "")) with
          | none => rw [hpa] at hfst; simp at hfst
          | some es =>
            rw [hpa] at hfst
            simp only [Option.map_some', Option.some.injEq] at hfst
            exact ⟨hl.symm, es, rfl, hr ▸ hfst⟩
  · rw [gpadParseVals_len cfg line vals hlen] at h
    exact Option.noConfusion h

theorem hpoaAssemble_fst (cfg : AssocParserConfig) (id : String)
    (va : List String) :
    (hpoaAssemble cfg id va).1 =
      some (pyJoin '\t' va, [hpoaMkAssoc cfg (pyJoin '\t' va) id va]) := rfl

theorem hpoaParseVals_inv (cfg : AssocParserConfig) (line : String)
    (vals : List String) (l' : String) (recs : List Assoc)
    (h : (hpoaParseVals cfg line vals).1 = some (l', recs))
    (hne : recs ≠ []) :
    ∃ va, (va = vals ∨ ∃ g, va = vals.set 4 g) ∧ l' = pyJoin '\t' va ∧
      recs = [hpoaMkAssoc cfg (pyJoin '\t' va)
        (pair_to_id cfg (vals.getD 0 "") (vals.getD 1 "")) va] := by
  by_cases hlen : vals.length = 14
  · cases h1 : (validate_id cfg
        (pair_to_id cfg (vals.getD 0 "") (vals.getD 1 "")) line
        (some IdContext.ENTITY)).1 with
    | false =>
      rw [hpoaParseVals_drop1 cfg line vals hlen h1] at h
      have h' : some (line, ([] : List Assoc)) = some (l', recs) := h
      exact absurd ((Prod.mk.injEq _ _ _ _).mp (Option.some.inj h')).2.symm hne
    | true =>
      cases h2 : (validate_id cfg (vals.getD 4 "") line
          (some IdContext.ANNOTATION)).1 with
      | false =>
        rw [hpoaParseVals_drop2 cfg line vals hlen h1 h2] at h
        have h' : some (line, ([] : List Assoc)) = some (l', recs) := h
        exact absurd ((Prod.mk.injEq _ _ _ _).mp (Option.some.inj h')).2.symm
          hne
      | true =>
        rcases hcm : cfg.class_map with _ | cm
        · rcases hem : cfg.entity_map with _ | em
          · rw [hpoaParseVals_acc1 cfg line vals hlen hcm hem h1 h2] at h
            rw [hpoaAssemble_fst] at h
            have h' : some (pyJoin '\t' vals, [hpoaMkAssoc cfg
                (pyJoin '\t' vals)
                (pair_to_id cfg (vals.getD 0 "") (vals.getD 1 "")) vals]) =
              some (l', recs) := h
            obtain ⟨hl, hr⟩ := (Prod.mk.injEq _ _ _ _).mp (Option.some.inj h')
            exact ⟨vals, Or.inl rfl, hl.symm, hr.symm⟩
          · rw [hpoaParseVals_crash1 cfg line vals em hlen hcm hem h1 h2] at h
            exact Option.noConfusion h
        · cases h3 : (validate_id cfg (map_id (vals.getD 4 "") cm) line
              (some IdContext.ANNOTATION)).1 with
          | false =>
            rw [hpoaParseVals_drop3 cfg line vals cm hlen hcm h1 h2 h3] at h
            have h' : some (line, ([] : List Assoc)) = some (l', recs) := h
            exact absurd
              ((Prod.mk.injEq _ _ _ _).mp (Option.some.inj h')).2.symm hne
          | true =>
            rcases hem : cfg.entity_map with _ | em
            · rw [hpoaParseVals_acc2 cfg line vals cm hlen hcm hem h1 h2 h3]
                at h
              rw [hpoaAssemble_fst] at h
              have h' : some (pyJoin '\t'
                  (vals.set 4 (map_id (vals.getD 4 "") cm)),
                  [hpoaMkAssoc cfg
                    (pyJoin '\t' (vals.set 4 (map_id (vals.getD 4 "") cm)))
                    (pair_to_id cfg (vals.getD 0 "") (vals.getD 1 ""))
                    (vals.set 4 (map_id (vals.getD 4 "") cm))]) =
                some (l', recs) := h
              obtain ⟨hl, hr⟩ :=
                (Prod.mk.injEq _ _ _ _).mp (Option.some.inj h')
              exact ⟨vals.set 4 (map_id (vals.getD 4 "") cm),
                Or.inr ⟨_, rfl⟩, hl.symm, hr.symm⟩
            · rw [hpoaParseVals_crash2 cfg line vals cm em hlen hcm hem
                h1 h2 h3] at h
              exact Option.noConfusion h
  · rw [hpoaParseVals_len cfg line vals hlen] at h
    exact Option.noConfusion h

theorem hpoaMkAssoc_type (cfg : AssocParserConfig) (line id : String)
    (vals : List String) :
    (hpoaMkAssoc cfg line id vals).subject.type = some "disease" := rfl

theorem hpoaMkAssoc_taxon (cfg : AssocParserConfig) (line id : String)
    (vals : List String) :
    (hpoaMkAssoc cfg line id vals).subject.taxon =
      some "NCBITaxon:9606" := rfl

theorem hpoaMkAssoc_qualifiers (cfg : AssocParserConfig) (line id : String)
    (vals : List String) :
    (hpoaMkAssoc cfg line id vals).qualifiers =
      some (qualifierTokens (vals.getD 3 "")) := rfl

theorem hpoaMkAssoc_negated (cfg : AssocParserConfig) (line id : String)
    (vals : List String) :
    (hpoaMkAssoc cfg line id vals).negated =
      some ((qualifierTokens (vals.getD 3 "")).contains "NOT") := rfl

theorem hpoaMkAssoc_relation (cfg : AssocParserConfig) (line id : String)
    (vals : List String) :
    (hpoaMkAssoc cfg line id vals).relation =
      (if ((qualifierTokens (vals.getD 3 "")).filter
          (fun q => q != "NOT")).length > 0 then
        some (((qualifierTokens (vals.getD 3 "")).filter
          (fun q => q != "NOT")).headD "")
      else hpoaDefaultRelation (vals.getD 10 "")) := rfl

theorem gafParseVals_line_indep (cfg : AssocParserConfig) (l1 l2 : String)
    (vals : List String) :
    ((gafParseVals cfg l1 vals).1).map Prod.snd =
      ((gafParseVals cfg l2 vals).1).map Prod.snd ∧
    (∀ a r b s, (gafParseVals cfg l1 vals).1 = some (a, r) →
      (gafParseVals cfg l2 vals).1 = some (b, s) → r ≠ [] → a = b) := by
  by_cases hlen : vals.length = 17
  · cases h1 : (validate_id cfg
        (pair_to_id cfg (vals.getD 0 "") (vals.getD 1 "")) l1
        (some IdContext.ENTITY)).1 with
    | false =>
      have h1' := (validate_id_fst cfg
        (pair_to_id cfg (vals.getD 0 "") (vals.getD 1 "")) l2 l1
        (some IdContext.ENTITY)).trans h1
      rw [gafParseVals_drop1 cfg l1 vals hlen h1,
        gafParseVals_drop1 cfg l2 vals hlen h1']
      refine ⟨rfl, fun a r b s ha hb hr => ?_⟩
      have ha' : some (l1, ([] : List Assoc)) = some (a, r) := ha
      exact absurd ((Prod.mk.injEq _ _ _ _).mp (Option.some.inj ha')).2.symm hr
    | true =>
      have h1' := (validate_id_fst cfg
        (pair_to_id cfg (vals.getD 0 "") (vals.getD 1 "")) l2 l1
        (some IdContext.ENTITY)).trans h1
      cases h2 : (validate_id cfg (vals.getD 4 "") l1
          (some IdContext.ANNOTATION)).1 with
      | false =>
        have h2' := (validate_id_fst cfg (vals.getD 4 "") l2 l1
          (some IdContext.ANNOTATION)).trans h2
        rw [gafParseVals_drop2 cfg l1 vals hlen h1 h2,
          gafParseVals_drop2 cfg l2 vals hlen h1' h2']
        refine ⟨rfl, fun a r b s ha hb hr => ?_⟩
        have ha' : some (l1, ([] : List Assoc)) = some (a, r) := ha
        exact absurd ((Prod.mk.injEq _ _ _ _).mp (Option.some.inj ha')).2.symm hr
      | true =>
        have h2' := (validate_id_fst cfg (vals.getD 4 "") l2 l1
          (some IdContext.ANNOTATION)).trans h2
        rcases hcm : cfg.class_map with _ | cm
        · rcases hem : cfg.entity_map with _ | em
          · rw [gafParseVals_acc1 cfg l1 vals hlen hcm hem h1 h2,
              gafParseVals_acc1 cfg l2 vals hlen hcm hem h1' h2']
            refine ⟨rfl, fun a r b s ha hb hr => ?_⟩
            have := ha.symm.trans hb
            exact ((Prod.mk.injEq _ _ _ _).mp (Option.some.inj this)).1
          · rw [gafParseVals_crash1 cfg l1 vals em hlen hcm hem h1 h2,
              gafParseVals_crash1 cfg l2 vals em hlen hcm hem h1' h2']
            exact ⟨rfl, fun a r b s ha => absurd ha (by simp)⟩
        · cases h3 : (validate_id cfg (map_id (vals.getD 4 "") cm) l1
              (some IdContext.ANNOTATION)).1 with
          | false =>
            have h3' := (validate_id_fst cfg (map_id (vals.getD 4 "") cm)
              l2 l1 (some IdContext.ANNOTATION)).trans h3
            rw [gafParseVals_drop3 cfg l1 vals cm hlen hcm h1 h2 h3,
              gafParseVals_drop3 cfg l2 vals cm hlen hcm h1' h2' h3']
            refine ⟨rfl, fun a r b s ha hb hr => ?_⟩
            have ha' : some (l1, ([] : List Assoc)) = some (a, r) := ha
            exact absurd
              ((Prod.mk.injEq _ _ _ _).mp (Option.some.inj ha')).2.symm hr
          | true =>
            have h3' := (validate_id_fst cfg (map_id (vals.getD 4 "") cm)
              l2 l1 (some IdContext.ANNOTATION)).trans h3
            rcases hem : cfg.entity_map with _ | em
            · rw [gafParseVals_acc2 cfg l1 vals cm hlen hcm hem h1 h2 h3,
                gafParseVals_acc2 cfg l2 vals cm hlen hcm hem h1' h2' h3']
              refine ⟨rfl, fun a r b s ha hb hr => ?_⟩
              have := ha.symm.trans hb
              exact ((Prod.mk.injEq _ _ _ _).mp (Option.some.inj this)).1
            · rw [gafParseVals_crash2 cfg l1 vals cm em hlen hcm hem h1 h2 h3,
                gafParseVals_crash2 cfg l2 vals cm em hlen hcm hem
                  h1' h2' h3']
              exact ⟨rfl, fun a r b s ha => absurd ha (by simp)⟩
  · rw [gafParseVals_len cfg l1 vals hlen, gafParseVals_len cfg l2 vals hlen]
    exact ⟨rfl, fun a r b s ha => absurd ha (by simp)⟩

theorem gafVals_17 (line : String) (h : (pySplit '\t' line).length = 17) :
    gafVals line = pySplit '\t' line := by
  simp [gafVals, h]

theorem gafVals_15 (line : String) (h : (pySplit '\t' line).length = 15) :
    gafVals line = pySplit '\t' line ++ ["", ""] := by
  simp [gafVals, h]

theorem gafMkAssoc_qualifiers (cfg : AssocParserConfig) (line id : String)
    (vals : List String) (taxon : String) (syn : List String)
    (extns : List Extension) (ev : Evidence) :
    (gafMkAssoc cfg line id vals taxon syn extns ev).qualifiers =
      some (qualifierTokens (vals.getD 3 "")) := rfl

theorem gafMkAssoc_negated (cfg : AssocParserConfig) (line id : String)
    (vals : List String) (taxon : String) (syn : List String)
    (extns : List Extension) (ev : Evidence) :
    (gafMkAssoc cfg line id vals taxon syn extns ev).negated =
      some ((qualifierTokens (vals.getD 3 "")).contains "NOT") := rfl

theorem gafMkAssoc_relation (cfg : AssocParserConfig) (line id : String)
    (vals : List String) (taxon : String) (syn : List String)
    (extns : List Extension) (ev : Evidence) :
    (gafMkAssoc cfg line id vals taxon syn extns ev).relation =
      (if ((qualifierTokens (vals.getD 3 "")).filter
          (fun q => q != "NOT")).length > 0 then
        some (((qualifierTokens (vals.getD 3 "")).filter
          (fun q => q != "NOT")).headD "")
      else gafDefaultRelation (vals.getD 8 "")) := rfl

theorem gafMkAssoc_evidence (cfg : AssocParserConfig) (line id : String)
    (vals : List String) (taxon : String) (syn : List String)
    (extns : List Extension) (ev : Evidence) :
    (gafMkAssoc cfg line id vals taxon syn extns ev).evidence = ev := rfl

theorem gafMkAssoc_extns (cfg : AssocParserConfig) (line id : String)
    (vals : List String) (taxon : String) (syn : List String)
    (extns : List Extension) (ev : Evidence) :
    (gafMkAssoc cfg line id vals taxon syn extns ev).object_extensions =
      (if extns.length > 0 then some extns else none) := rfl

theorem gpadMkAssoc_extns (cfg : AssocParserConfig) (line id : String)
    (vals : List String) (extns : List Extension) :
    (gpadMkAssoc cfg line id vals extns).object.extensions =
      some extns := rfl

theorem gafParseVals_nil_line (cfg : AssocParserConfig) (line : String)
    (vals : List String) (l' : String)
    (h : (gafParseVals cfg line vals).1 = some (l', [])) : l' = line := by
  by_cases hacc : ∃ va, (gafAssemble cfg
      (pair_to_id cfg (vals.getD 0 "") (vals.getD 1 "")) va).1 =
      some (l', ([] : List Assoc))
  · obtain ⟨va, hva⟩ := hacc
    obtain ⟨_, es, hpa, hr⟩ := gafAssemble_inv cfg _ va l' [] hva
    have hlen := parseAllExtns_length _ _ hpa
    have hgl := gafExpected_length cfg (pyJoin '\t' va)
      (pair_to_id cfg (vals.getD 0 "") (vals.getD 1 "")) va
      (gafTaxonOf cfg va) (gafSynOf va) (Evidence.str (va.getD 6 "")) es
    rw [← hr] at hgl
    rw [← hgl] at hlen
    exact absurd (List.length_eq_zero.mp hlen.symm) (pySplit_ne_nil '|' _)
  · by_cases hlen : vals.length = 17
    · cases h1 : (validate_id cfg
          (pair_to_id cfg (vals.getD 0 "") (vals.getD 1 "")) line
          (some IdContext.ENTITY)).1 with
      | false =>
        rw [gafParseVals_drop1 cfg line vals hlen h1] at h
        have h' : some (line, ([] : List Assoc)) = some (l', []) := h
        exact ((Prod.mk.injEq _ _ _ _).mp (Option.some.inj h')).1.symm
      | true =>
        cases h2 : (validate_id cfg (vals.getD 4 "") line
            (some IdContext.ANNOTATION)).1 with
        | false =>
          rw [gafParseVals_drop2 cfg line vals hlen h1 h2] at h
          have h' : some (line, ([] : List Assoc)) = some (l', []) := h
          exact ((Prod.mk.injEq _ _ _ _).mp (Option.some.inj h')).1.symm
        | true =>
          rcases hcm : cfg.class_map with _ | cm
          · rcases hem : cfg.entity_map with _ | em
            · rw [gafParseVals_acc1 cfg line vals hlen hcm hem h1 h2] at h
              exact absurd ⟨vals, h⟩ hacc
            · rw [gafParseVals_crash1 cfg line vals em hlen hcm hem h1 h2]
                at h
              exact Option.noConfusion h
          · cases h3 : (validate_id cfg (map_id (vals.getD 4 "") cm) line
                (some IdContext.ANNOTATION)).1 with
            | false =>
              rw [gafParseVals_drop3 cfg line vals cm hlen hcm h1 h2 h3] at h
              have h' : some (line, ([] : List Assoc)) = some (l', []) := h
              exact ((Prod.mk.injEq _ _ _ _).mp (Option.some.inj h')).1.symm
            | true =>
              rcases hem : cfg.entity_map with _ | em
              · rw [gafParseVals_acc2 cfg line vals cm hlen hcm hem h1 h2 h3]
                  at h
                exact absurd ⟨vals.set 4 (map_id (vals.getD 4 "") cm), h⟩ hacc
              · rw [gafParseVals_crash2 cfg line vals cm em hlen hcm hem
                  h1 h2 h3] at h
                exact Option.noConfusion h
    · rw [gafParseVals_len cfg line vals hlen] at h
      exact Option.noConfusion h

theorem gaf_fanout (cfg : AssocParserConfig) (line l' : String)
    (recs : List Assoc) (h : (gafParseLine cfg line).1 = some (l', recs))
    (hne : recs ≠ []) :
    ∃ es, parseAllExtns (pySplit '|' ((gafVals line).getD 15 "")) = some es ∧
      recs.length = (pySplit '|' ((gafVals line).getD 15 "")).length ∧
      recs.map (fun a => a.object_extensions) =
        es.map (fun e => if e.length > 0 then some e else none) := by
  rw [gafParseLine_eq] at h
  obtain ⟨va, hva, -, -, hass, -⟩ :=
    gafParseVals_inv cfg line (gafVals line) l' recs h hne
  obtain ⟨-, es, hpa, hr⟩ := gafAssemble_inv cfg _ va l' recs hass
  have h15 : va.getD 15 "" = (gafVals line).getD 15 "" := by
    rcases hva with rfl | ⟨g, rfl⟩
    · rfl
    · exact getD_set_ne _ 4 15 _ _ (by decide)
  rw [h15] at hpa
  refine ⟨es, hpa, ?_, ?_⟩
  · rw [hr, gafExpected_length, parseAllExtns_length _ _ hpa]
  · rw [hr, gafExpected_map_extns]

theorem gpad_fanout (cfg : AssocParserConfig) (line l' : String)
    (recs : List Assoc) (h : (gpadParseLine cfg line).1 = some (l', recs))
    (hne : recs ≠ []) :
    ∃ es, parseAllExtns
        (pySplit '|' ((pySplit '\t' line).getD 10 "")) = some es ∧
      recs.length = (pySplit '|' ((pySplit '\t' line).getD 10 "")).length ∧
      recs.map (fun a => a.object.extensions) = es.map some := by
  obtain ⟨-, es, hpa, hr⟩ :=
    gpadParseVals_inv cfg line (pySplit '\t' line) l' recs h hne
  refine ⟨es, hpa, ?_, ?_⟩
  · rw [hr, List.length_map, parseAllExtns_length _ _ hpa]
  · rw [hr, List.map_map]
    have hfun : ((fun a => a.object.extensions) ∘
        gpadMkAssoc cfg line
          (pair_to_id cfg ((pySplit '\t' line).getD 0 "")
            ((pySplit '\t' line).getD 1 "")) (pySplit '\t' line)) =
        (some : List Extension → Option (List Extension)) :=
      funext fun e => gpadMkAssoc_extns _ _ _ _ _
    rw [hfun]

/-- C1, counterexample: on the GAF line whose qualifier column is exactly
`NOT` — and likewise on the analogous HPOA line — the emitted record has
`negated = true` but its reported qualifier list is `["NOT"]`, which still
contains the negation token: the source stores the full `qualifiers` split
(gafparser.py lines 591 and 758), not the `other_qualifiers` list with
`NOT` removed. -/
theorem claim_c1_counterexample :
    (gafParseLine defaultConfig c1exLine).1 = some (c1exLine, [c1exAssoc]) ∧
    c1exAssoc.negated = some true ∧
    c1exAssoc.qualifiers = some ["NOT"] ∧
    (hpoaParseLine defaultConfig c1hpoaLine).1 =
      some (c1hpoaLine, [c1hpoaAssoc]) ∧
    c1hpoaAssoc.negated = some true ∧
    c1hpoaAssoc.qualifiers = some ["NOT"] ∧
    "NOT" ∈ (["NOT"] : List String) := by decide

/-- C1 (amended): for every emitted GAF or HPOA record, `negated` is true
exactly when the pipe-split qualifier column contains `NOT`, but the
reported qualifier list is the full pipe-split of the column, with the
negation token retained; when the column is exactly `NOT`, the relation is
still defaulted purely from the aspect code, via the format's own
aspect table. -/
theorem claim_c1 (cfg : AssocParserConfig) (line l' : String)
    (recs : List Assoc) :
    ((gafParseLine cfg line).1 = some (l', recs) →
      ∀ a ∈ recs,
        a.qualifiers = some (qualifierTokens ((gafVals line).getD 3 "")) ∧
        a.negated = some
          ((qualifierTokens ((gafVals line).getD 3 "")).contains "NOT") ∧
        (qualifierTokens ((gafVals line).getD 3 "") = ["NOT"] →
          a.relation = gafDefaultRelation ((gafVals line).getD 8 ""))) ∧
    ((hpoaParseLine cfg line).1 = some (l', recs) →
      ∀ a ∈ recs,
        a.qualifiers =
          some (qualifierTokens ((pySplit '\t' line).getD 3 "")) ∧
        a.negated = some
          ((qualifierTokens ((pySplit '\t' line).getD 3 "")).contains
            "NOT") ∧
        (qualifierTokens ((pySplit '\t' line).getD 3 "") = ["NOT"] →
          a.relation =
            hpoaDefaultRelation ((pySplit '\t' line).getD 10 ""))) := by
  constructor
  · intro h a ha
    have hne : recs ≠ [] := List.ne_nil_of_mem ha
    rw [gafParseLine_eq] at h
    obtain ⟨va, hva, -, -, hass, -⟩ :=
      gafParseVals_inv cfg line (gafVals line) l' recs h hne
    obtain ⟨-, es, hpa, hr⟩ := gafAssemble_inv cfg _ va l' recs hass
    rw [hr] at ha
    obtain ⟨e, ev0, hae⟩ := gafExpected_mem cfg (pyJoin '\t' va) _ va
      (gafTaxonOf cfg va) (gafSynOf va) _ es a ha
    have h3 : va.getD 3 "" = (gafVals line).getD 3 "" := by
      rcases hva with rfl | ⟨g, rfl⟩
      · rfl
      · exact getD_set_ne _ 4 3 _ _ (by decide)
    have h8 : va.getD 8 "" = (gafVals line).getD 8 "" := by
      rcases hva with rfl | ⟨g, rfl⟩
      · rfl
      · exact getD_set_ne _ 4 8 _ _ (by decide)
    subst hae
    refine ⟨?_, ?_, ?_⟩
    · rw [gafMkAssoc_qualifiers, h3]
    · rw [gafMkAssoc_negated, h3]
    · intro hq
      rw [gafMkAssoc_relation, h3, hq, h8, if_neg (by decide)]
  · intro h a ha
    have hne : recs ≠ [] := List.ne_nil_of_mem ha
    obtain ⟨va, hva, -, hr⟩ :=
      hpoaParseVals_inv cfg line (pySplit '\t' line) l' recs h hne
    rw [hr] at ha
    rw [List.mem_singleton] at ha
    have h3 : va.getD 3 "" = (pySplit '\t' line).getD 3 "" := by
      rcases hva with rfl | ⟨g, rfl⟩
      · rfl
      · exact getD_set_ne _ 4 3 _ _ (by decide)
    have h10 : va.getD 10 "" = (pySplit '\t' line).getD 10 "" := by
      rcases hva with rfl | ⟨g, rfl⟩
      · rfl
      · exact getD_set_ne _ 4 10 _ _ (by decide)
    subst ha
    refine ⟨?_, ?_, ?_⟩
    · rw [hpoaMkAssoc_qualifiers, h3]
    · rw [hpoaMkAssoc_negated, h3]
    · intro hq
      rw [hpoaMkAssoc_relation, h3, hq, h10, if_neg (by decide)]

/-- C1, witness for the amended claim at the concrete GAF line `c1exLine`
and HPOA line `c1hpoaLine`. -/
theorem claim_c1_witness :
    ((gafParseLine defaultConfig c1exLine).1 =
        some (c1exLine, [c1exAssoc]) ∧
      (hpoaParseLine defaultConfig c1hpoaLine).1 =
        some (c1hpoaLine, [c1hpoaAssoc])) ∧
    (∀ a ∈ [c1exAssoc],
      a.qualifiers = some (qualifierTokens ((gafVals c1exLine).getD 3 "")) ∧
      a.negated = some
        ((qualifierTokens ((gafVals c1exLine).getD 3 "")).contains "NOT") ∧
      (qualifierTokens ((gafVals c1exLine).getD 3 "") = ["NOT"] →
        a.relation = gafDefaultRelation ((gafVals c1exLine).getD 8 ""))) ∧
    (∀ a ∈ [c1hpoaAssoc],
      a.qualifiers =
        some (qualifierTokens ((pySplit '\t' c1hpoaLine).getD 3 "")) ∧
      a.negated = some
        ((qualifierTokens ((pySplit '\t' c1hpoaLine).getD 3 "")).contains
          "NOT") ∧
      (qualifierTokens ((pySplit '\t' c1hpoaLine).getD 3 "") = ["NOT"] →
        a.relation =
          hpoaDefaultRelation ((pySplit '\t' c1hpoaLine).getD 10 ""))) :=
  ⟨⟨by decide, by decide⟩,
    (claim_c1 defaultConfig c1exLine c1exLine [c1exAssoc]).1 (by decide),
    (claim_c1 defaultConfig c1hpoaLine c1hpoaLine [c1hpoaAssoc]).2
      (by decide)⟩

/-- C2, counterexample: a GPAD line with 2 tab-separated fields (not 12)
makes `parse_line` raise the unpacking `ValueError` (embedded as a `none`
result with no messages), rather than logging an anomaly and returning the
line plus records extracted best-effort. -/
theorem claim_c2_counterexample :
    gpadParseLine defaultConfig "a\tb" = (none, []) ∧
    gafParseLine defaultConfig "a\tb" = (none, []) ∧
    (pySplit '\t' "a\tb").length = 2 := by decide

/-- C2 (amended): `parse_line` is not total — a GPAD line with a column
count other than 12, a GAF line with a count other than 15 or 17, and an
HPOA line with a count other than 14 all make the unpacking raise
(embedded as `none`), with no anomaly message logged and no best-effort
extraction (the column-count anomaly logging lives only in `skim`). -/
theorem claim_c2 (cfg : AssocParserConfig) (line : String) :
    (¬ (pySplit '\t' line).length = 12 →
      gpadParseLine cfg line = (none, [])) ∧
    (¬ (pySplit '\t' line).length = 15 → ¬ (pySplit '\t' line).length = 17 →
      gafParseLine cfg line = (none, [])) ∧
    (¬ (pySplit '\t' line).length = 14 →
      hpoaParseLine cfg line = (none, [])) := by
  refine ⟨fun h12 => ?_, fun h15 h17 => ?_, fun h14 => ?_⟩
  · exact gpadParseVals_len cfg line _ h12
  · have hv : gafVals line = pySplit '\t' line := by
      simp [gafVals, if_neg h15]
    rw [gafParseLine_eq, hv]
    exact gafParseVals_len cfg line _ h17
  · exact hpoaParseVals_len cfg line _ h14

/-- C2, witness at a concrete two-column line. -/
theorem claim_c2_witness :
    (¬ (pySplit '\t' "a\tb").length = 12 ∧
      ¬ (pySplit '\t' "a\tb").length = 14) ∧
    gpadParseLine defaultConfig "a\tb" = (none, []) ∧
    hpoaParseLine defaultConfig "a\tb" = (none, []) :=
  ⟨⟨by decide, by decide⟩,
    (claim_c2 defaultConfig "a\tb").1 (by decide),
    (claim_c2 defaultConfig "a\tb").2.2 (by decide)⟩

/-- C3: with an entity-id remap table configured, the source sets
`vals[1] = toks[1:]` (a list slice, gafparser.py lines 481-482 and
681-682) and then `"\t".join(vals)` raises a `TypeError` (embedded as
`none`), for GAF and HPOA alike — instead of substituting the remapped id,
re-validating it and rewriting the line as the claim describes. -/
theorem claim_c3 :
    gafParseLine c3Cfg c3Line = (none, []) ∧
    hpoaParseLine c3Cfg c3HpoaLine = (none, []) := by decide

/-- C4: for every record-producing GAF or GPAD line, the extension column
is split on the pipe into disjuncts and each disjunct on the comma into
conjuncts, each non-empty conjunct parsed as one property/filler atom
(`parseAllExtns` composes `parse_class_expression` exactly that way), and
`parse_line` emits exactly one record per disjunct carrying that
disjunct's atom list; concretely, extension column `A(1)|B(2),C(3)` yields
exactly 2 records with the stated atoms, and an empty extension column
yields exactly one record. -/
theorem claim_c4 :
    (∀ (cfg : AssocParserConfig) (line l' : String) (recs : List Assoc),
      (gafParseLine cfg line).1 = some (l', recs) → recs ≠ [] →
      ∃ es, parseAllExtns
          (pySplit '|' ((gafVals line).getD 15 "")) = some es ∧
        recs.length = (pySplit '|' ((gafVals line).getD 15 "")).length ∧
        recs.map (fun a => a.object_extensions) =
          es.map (fun e => if e.length > 0 then some e else none)) ∧
    (∀ (cfg : AssocParserConfig) (line l' : String) (recs : List Assoc),
      (gpadParseLine cfg line).1 = some (l', recs) → recs ≠ [] →
      ∃ es, parseAllExtns
          (pySplit '|' ((pySplit '\t' line).getD 10 "")) = some es ∧
        recs.length =
          (pySplit '|' ((pySplit '\t' line).getD 10 "")).length ∧
        recs.map (fun a => a.object.extensions) = es.map some) ∧
    ((gafParseLine defaultConfig c4exLine).1 = some (c4exLine, c4exRecs) ∧
      c4exRecs.length = 2 ∧
      c4exRecs.map (fun a => a.object_extensions) =
        [some [⟨"A", "1"⟩], some [⟨"B", "2"⟩, ⟨"C", "3"⟩]]) ∧
    (∀ (cfg : AssocParserConfig) (line l' : String) (recs : List Assoc),
      (gafParseLine cfg line).1 = some (l', recs) → recs ≠ [] →
      (gafVals line).getD 15 "" = "" → recs.length = 1) := by
  refine ⟨fun cfg line l' recs h hne => gaf_fanout cfg line l' recs h hne,
    fun cfg line l' recs h hne => gpad_fanout cfg line l' recs h hne,
    ⟨by decide, by decide, by decide⟩,
    fun cfg line l' recs h hne hxp => ?_⟩
  obtain ⟨es, -, hlen, -⟩ := gaf_fanout cfg line l' recs h hne
  rw [hlen, hxp]
  rfl

/-- C4, witness at the concrete line `c4exLine`. -/
theorem claim_c4_witness :
    ((gafParseLine defaultConfig c4exLine).1 = some (c4exLine, c4exRecs) ∧
      c4exRecs ≠ []) ∧
    (∃ es, parseAllExtns
        (pySplit '|' ((gafVals c4exLine).getD 15 "")) = some es ∧
      c4exRecs.length =
        (pySplit '|' ((gafVals c4exLine).getD 15 "")).length ∧
      c4exRecs.map (fun a => a.object_extensions) =
        es.map (fun e => if e.length > 0 then some e else none)) :=
  ⟨⟨by decide, by decide⟩,
    claim_c4.1 defaultConfig c4exLine c4exLine c4exRecs (by decide)
      (by decide)⟩

/-- C5, counterexample: the valid 15-column line `c5exLine` is accepted
(one record) with no remap configured and no extension content, yet the
rewritten line returned is the original plus two trailing empty columns
(the source pads `vals` to 17 and rejoins, lines 436-437 and 488), not the
original line. -/
theorem claim_c5_counterexample :
    defaultConfig.class_map = none ∧
    defaultConfig.entity_map = none ∧
    (pySplit '\t' c5exLine).length = 15 ∧
    (gafParseLine defaultConfig c5exLine).1.map Prod.fst =
      some (c5exLine ++ "\t\t") ∧
    (gafParseLine defaultConfig c5exLine).1.map (fun p => p.2.length) =
      some 1 ∧
    ¬ c5exLine ++ "\t\t" = c5exLine := by decide

/-- C5 (amended): with no remap configured, a 17-column GAF line
round-trips exactly; an accepted 15-column line returns the original plus
two trailing tab-separated empty columns; a dropped line returns its
original text. -/
theorem claim_c5 (cfg : AssocParserConfig) (line l' : String)
    (recs : List Assoc) (hcm : cfg.class_map = none)
    (hem : cfg.entity_map = none)
    (h : (gafParseLine cfg line).1 = some (l', recs)) :
    ((pySplit '\t' line).length = 17 → l' = line) ∧
    ((pySplit '\t' line).length = 15 → recs ≠ [] → l' = line ++ "\t\t") ∧
    (recs = [] → l' = line) := by
  rw [gafParseLine_eq] at h
  refine ⟨fun h17 => ?_, fun h15 hne => ?_, fun hnil => ?_⟩
  · rcases em : recs with _ | ⟨r, rs⟩
    · exact gafParseVals_nil_line cfg line _ l' (em ▸ h)
    · have hne : recs ≠ [] := by rw [em]; exact List.cons_ne_nil r rs
      obtain ⟨va, -, -, hcmn, hass, -⟩ :=
        gafParseVals_inv cfg line (gafVals line) l' recs h hne
      obtain ⟨hl, -, -, -⟩ := gafAssemble_inv cfg _ va l' recs hass
      rw [hl, hcmn hcm, gafVals_17 line h17, pyJoin_pySplit]
  · obtain ⟨va, -, -, hcmn, hass, -⟩ :=
      gafParseVals_inv cfg line (gafVals line) l' recs h hne
    obtain ⟨hl, -, -, -⟩ := gafAssemble_inv cfg _ va l' recs hass
    rw [hl, hcmn hcm, gafVals_15 line h15,
      pyJoin_append_tabs _ (pySplit_ne_nil '\t' line), pyJoin_pySplit]
  · exact gafParseVals_nil_line cfg line _ l' (hnil ▸ h)

/-- C5, witness for the amended claim at the 17-column line `c5wLine` and
the 15-column line `c5exLine`. -/
theorem claim_c5_witness :
    ((gafParseLine defaultConfig c5wLine).1 = some (c5wLine, [c5wAssoc]) ∧
      (pySplit '\t' c5wLine).length = 17) ∧
    c5wLine = c5wLine ∧
    (gafParseLine defaultConfig c5exLine).1 =
      some (c5exLine ++ "\t\t",
        ((gafParseLine defaultConfig c5exLine).1.map Prod.snd).getD []) :=
  ⟨⟨by decide, by decide⟩,
    (claim_c5 defaultConfig c5wLine c5wLine [c5wAssoc] rfl rfl
      (by decide)).1 (by decide),
    by decide⟩

/-- C6, counterexample: validating the entity id `a|b` (an embedded pipe,
no space) succeeds and appends exactly one message — but that message has
severity `ERROR`, not `WARNING`: the source logs the pipe through
`Report.error` (gafparser.py line 238), so no WARNING-severity message is
ever produced. -/
theorem claim_c6_counterexample :
    validate_id defaultConfig "a|b" "L" (some IdContext.ENTITY) =
      (true, [⟨Report.ERROR, "", Report.INVALID_ID, "", "a|b"⟩]) ∧
    ¬ Report.ERROR = Report.WARNING := by decide

/-- C6 (amended): an embedded pipe in an id without a space is logged as a
non-fatal message at ERROR severity with empty line text, and validation
still succeeds (the line is not dropped on its account): this holds for
entity ids unconditionally and for term ids whenever no idspace allowlist
is configured. -/
theorem claim_c6 (cfg : AssocParserConfig) (id line : String)
    (hsp : pyContains id ' ' = false) (hp : pyContains id '|' = true) :
    validate_id cfg id line (some IdContext.ENTITY) =
      (true, [⟨Report.ERROR, "", Report.INVALID_ID, "", id⟩]) ∧
    (cfg.class_idspaces = none →
      validate_id cfg id line (some IdContext.ANNOTATION) =
        (true, [⟨Report.ERROR, "", Report.INVALID_ID, "", id⟩])) := by
  constructor
  · unfold validate_id
    rw [if_neg (by rw [hsp]; exact Bool.false_ne_true), if_pos hp]
  · intro hcs
    unfold validate_id
    rw [if_neg (by rw [hsp]; exact Bool.false_ne_true), if_pos hp, hcs]

/-- C6, witness at the concrete id `a|b`. -/
theorem claim_c6_witness :
    (pyContains "a|b" ' ' = false ∧ pyContains "a|b" '|' = true) ∧
    validate_id defaultConfig "a|b" "L" (some IdContext.ENTITY) =
      (true, [⟨Report.ERROR, "", Report.INVALID_ID, "", "a|b"⟩]) :=
  ⟨⟨by decide, by decide⟩,
    (claim_c6 defaultConfig "a|b" "L" (by decide) (by decide)).1⟩

/-- C7, counterexample: the dropped 15-column line `c7exLine` (entity id
with a space) returns `(c7exLine, [])`, while the same content as a
17-column line with two empty trailing columns returns the 17-column text,
so the two `(rewritten line, records)` outputs differ. -/
theorem claim_c7_counterexample :
    (gafParseLine defaultConfig c7exLine).1 = some (c7exLine, []) ∧
    (gafParseLine defaultConfig (c7exLine ++ "\t\t")).1 =
      some (c7exLine ++ "\t\t", []) ∧
    ¬ c7exLine = c7exLine ++ "\t\t" := by decide

/-- C7 (amended): a 15-column GAF line and the same content as a 17-column
line with two empty trailing columns always produce the same records, and
whenever the line is accepted (at least one record) also the same
rewritten line; only a dropped line's returned text differs (each run
returns its own original). -/
theorem claim_c7 (cfg : AssocParserConfig) (line : String)
    (h15 : (pySplit '\t' line).length = 15) :
    ((gafParseLine cfg line).1).map Prod.snd =
      ((gafParseLine cfg (line ++ "\t\t")).1).map Prod.snd ∧
    (∀ a r b s, (gafParseLine cfg line).1 = some (a, r) →
      (gafParseLine cfg (line ++ "\t\t")).1 = some (b, s) →
      r ≠ [] → a = b) := by
  have hv15 : gafVals line = pySplit '\t' line ++ ["", ""] :=
    gafVals_15 line h15
  have hv17 : gafVals (line ++ "\t\t") = pySplit '\t' line ++ ["", ""] := by
    rw [gafVals, pySplit_append_tabs]
    have hlen : (pySplit '\t' line ++ ["", ""]).length = 17 := by
      rw [List.length_append, h15]
      decide
    rw [if_neg (by rw [hlen]; decide)]
  rw [gafParseLine_eq cfg line, gafParseLine_eq cfg (line ++ "\t\t"),
    hv15, hv17]
  exact gafParseVals_line_indep cfg line (line ++ "\t\t")
    (pySplit '\t' line ++ ["", ""])

/-- C7, witness at the concrete 15-column line `c5exLine`. -/
theorem claim_c7_witness :
    (pySplit '\t' c5exLine).length = 15 ∧
    ((gafParseLine defaultConfig c5exLine).1).map Prod.snd =
      ((gafParseLine defaultConfig (c5exLine ++ "\t\t")).1).map Prod.snd :=
  ⟨by decide,
    (claim_c7 defaultConfig c5exLine (by decide)).1⟩

/-- C8: for every GAF line of 15 or 17 columns whose constructed entity id
contains a space, `parse_line` yields zero records, returns the original
line, and appends exactly one ERROR-level "Invalid identifier" message. -/
theorem claim_c8 (cfg : AssocParserConfig) (line : String)
    (hlen : (pySplit '\t' line).length = 15 ∨
      (pySplit '\t' line).length = 17)
    (hsp : pyContains (pair_to_id cfg ((pySplit '\t' line).getD 0 "")
      ((pySplit '\t' line).getD 1 "")) ' ' = true) :
    gafParseLine cfg line =
      (some (line, []),
        [⟨Report.ERROR, line, Report.INVALID_ID, "",
          pair_to_id cfg ((pySplit '\t' line).getD 0 "")
            ((pySplit '\t' line).getD 1 "")⟩]) := by
  have h0 : (gafVals line).getD 0 "" = (pySplit '\t' line).getD 0 "" := by
    rcases hlen with h15 | h17
    · rw [gafVals_15 line h15]
      exact List.getD_append _ _ _ _ (by rw [h15]; decide)
    · rw [gafVals_17 line h17]
  have h1c : (gafVals line).getD 1 "" = (pySplit '\t' line).getD 1 "" := by
    rcases hlen with h15 | h17
    · rw [gafVals_15 line h15]
      exact List.getD_append _ _ _ _ (by rw [h15]; decide)
    · rw [gafVals_17 line h17]
  have hl17 : (gafVals line).length = 17 := by
    rcases hlen with h15 | h17
    · rw [gafVals_15 line h15, List.length_append, h15]
      decide
    · rw [gafVals_17 line h17, h17]
  have hval := validate_id_space cfg
    (pair_to_id cfg ((gafVals line).getD 0 "") ((gafVals line).getD 1 ""))
    line (some IdContext.ENTITY) (by rw [h0, h1c]; exact hsp)
  have h1 : (validate_id cfg
      (pair_to_id cfg ((gafVals line).getD 0 "") ((gafVals line).getD 1 ""))
      line (some IdContext.ENTITY)).1 = false := by rw [hval]
  rw [gafParseLine_eq, gafParseVals_drop1 cfg line (gafVals line) hl17 h1,
    hval, h0, h1c]

/-- C8, witness at the concrete line `c8wLine` (database column `A B`). -/
theorem claim_c8_witness :
    ((pySplit '\t' c8wLine).length = 17 ∧
      pyContains (pair_to_id defaultConfig
        ((pySplit '\t' c8wLine).getD 0 "")
        ((pySplit '\t' c8wLine).getD 1 "")) ' ' = true) ∧
    gafParseLine defaultConfig c8wLine =
      (some (c8wLine, []),
        [⟨Report.ERROR, c8wLine, Report.INVALID_ID, "",
          pair_to_id defaultConfig ((pySplit '\t' c8wLine).getD 0 "")
            ((pySplit '\t' c8wLine).getD 1 "")⟩]) :=
  ⟨⟨by decide, by decide⟩,
    claim_c8 defaultConfig c8wLine (Or.inr (by decide)) (by decide)⟩

/-- C9: every accepted HPOA line yields exactly one record (HPOA never
fans out), whose subject type is the hardcoded "disease" and whose subject
taxon id is the hardcoded human taxon `NCBITaxon:9606`. -/
theorem claim_c9 (cfg : AssocParserConfig) (line l' : String)
    (recs : List Assoc) (h : (hpoaParseLine cfg line).1 = some (l', recs))
    (hne : recs ≠ []) :
    recs.length = 1 ∧
    ∀ a ∈ recs, a.subject.type = some "disease" ∧
      a.subject.taxon = some "NCBITaxon:9606" := by
  obtain ⟨va, -, -, hr⟩ := hpoaParseVals_inv cfg line _ l' recs h hne
  subst hr
  refine ⟨rfl, fun a ha => ?_⟩
  rw [List.mem_singleton] at ha
  subst ha
  exact ⟨hpoaMkAssoc_type _ _ _ _, hpoaMkAssoc_taxon _ _ _ _⟩

/-- C9, witness at the concrete line `c9wLine`. -/
theorem claim_c9_witness :
    ((hpoaParseLine defaultConfig c9wLine).1 =
        some (c9wLine, [c9wAssoc]) ∧ [c9wAssoc] ≠ []) ∧
    ([c9wAssoc].length = 1 ∧
      ∀ a ∈ [c9wAssoc], a.subject.type = some "disease" ∧
        a.subject.taxon = some "NCBITaxon:9606") :=
  ⟨⟨by decide, by decide⟩,
    claim_c9 defaultConfig c9wLine c9wLine [c9wAssoc] (by decide)
      (by decide)⟩

/-- C10: for every record-producing GAF line, an id with a space in the
pipe-split reference column is omitted from every emitted record's
supporting-reference set while an ERROR message with empty line text is
appended, and likewise for the with/from column — and the records are
still emitted (the bad id never drops the line). -/
theorem claim_c10 (cfg : AssocParserConfig) (line l' : String)
    (recs : List Assoc) (bad : String)
    (h : (gafParseLine cfg line).1 = some (l', recs)) (hne : recs ≠ [])
    (hsp : pyContains bad ' ' = true) :
    (bad ∈ pySplit '|' ((gafVals line).getD 5 "") →
      (∀ a ∈ recs, bad ∉ a.evidence.has_supporting_reference) ∧
      (⟨Report.ERROR, "", Report.INVALID_ID, "", bad⟩ : Message) ∈
        (gafParseLine cfg line).2) ∧
    (bad ∈ pySplit '|' ((gafVals line).getD 7 "") →
      (∀ a ∈ recs, bad ∉ a.evidence.with_support_from) ∧
      (⟨Report.ERROR, "", Report.INVALID_ID, "", bad⟩ : Message) ∈
        (gafParseLine cfg line).2) := by
  rw [gafParseLine_eq] at h
  obtain ⟨va, hva, -, -, hass, hmsg⟩ :=
    gafParseVals_inv cfg line (gafVals line) l' recs h hne
  obtain ⟨-, es, -, hr⟩ := gafAssemble_inv cfg _ va l' recs hass
  have h5 : va.getD 5 "" = (gafVals line).getD 5 "" := by
    rcases hva with rfl | ⟨g, rfl⟩
    · rfl
    · exact getD_set_ne _ 4 5 _ _ (by decide)
  have h7 : va.getD 7 "" = (gafVals line).getD 7 "" := by
    rcases hva with rfl | ⟨g, rfl⟩
    · rfl
    · exact getD_set_ne _ 4 7 _ _ (by decide)
  constructor
  · intro hbad
    constructor
    · intro a ha
      rw [hr] at ha
      obtain ⟨e, ev0, hae⟩ := gafExpected_mem cfg (pyJoin '\t' va) _ va
        (gafTaxonOf cfg va) (gafSynOf va) _ es a ha
      subst hae
      rw [gafMkAssoc_evidence]
      exact split_pipe_not_mem cfg _ bad hsp
    · have hmem := split_pipe_msg cfg (va.getD 5 "") bad hsp
        (by rw [h5]; exact hbad)
      have hin := gafAssemble_msg cfg _ va l' recs hass _ (Or.inl hmem)
      rw [gafParseLine_eq]
      exact hmsg _ hin
  · intro hbad
    constructor
    · intro a ha
      rw [hr] at ha
      obtain ⟨e, ev0, hae⟩ := gafExpected_mem cfg (pyJoin '\t' va) _ va
        (gafTaxonOf cfg va) (gafSynOf va) _ es a ha
      subst hae
      rw [gafMkAssoc_evidence]
      exact split_pipe_not_mem cfg _ bad hsp
    · have hmem := split_pipe_msg cfg (va.getD 7 "") bad hsp
        (by rw [h7]; exact hbad)
      have hin := gafAssemble_msg cfg _ va l' recs hass _ (Or.inr hmem)
      rw [gafParseLine_eq]
      exact hmsg _ hin

/-- C10, witness at the concrete line `c10wLine` with the bad id `b d`. -/
theorem claim_c10_witness :
    ((gafParseLine defaultConfig c10wLine).1 =
        some (c10wLine, [c10wAssoc]) ∧
      pyContains "b d" ' ' = true ∧
      "b d" ∈ pySplit '|' ((gafVals c10wLine).getD 5 "")) ∧
    ((∀ a ∈ [c10wAssoc], "b d" ∉ a.evidence.has_supporting_reference) ∧
      (⟨Report.ERROR, "", Report.INVALID_ID, "", "b d"⟩ : Message) ∈
        (gafParseLine defaultConfig c10wLine).2) :=
  ⟨⟨by decide, by decide, by decide⟩,
    (claim_c10 defaultConfig c10wLine c10wLine [c10wAssoc] "b d"
      (by decide) (by decide) (by decide)).1 (by decide)⟩
